import Mathlib

/-!
# recordshell: sandbox orchestration of `main` (src/recordshell.cc)

A shallow embedding of `main` and of the three lambda bodies it forks
(container, interactive shell, recorder), followed by the properties of the
orchestration layer.
-/

namespace RecordShell

/-! ## Strings -/

/-- The `std::string::back()` accessor. The C++ standard requires a non-empty
string; on the empty string the call has undefined behaviour, rendered `none`. -/
def back (s : String) : Option Char :=
  s.data.getLast?

/-- The `std::to_string` conversion of a process id (decimal, no leading zeros). -/
def to_string (n : Nat) : String :=
  Nat.repr n

/-- Lines 33-36 of `main`: `string directory( argv[ 1 ] )` followed by
`if ( directory.back() != '/' ) directory.append( "/" )`.
The result is `none` exactly when `back()` is evaluated on an empty string. -/
def normalize_directory (arg : String) : Option String :=
  match back arg with
  | none => none
  | some c => if c ≠ '/' then some (arg ++ "/") else some arg

/-- Line 49 of `main`: the name of the egress device for process id `pid`. -/
def egress_name (pid : Nat) : String :=
  "veth-" ++ to_string pid

/-- Line 49 of `main`: the name of the ingress device for process id `pid`. -/
def ingress_name (pid : Nat) : String :=
  "veth-i" ++ to_string pid

/-- Value of a decimal digit string, most significant digit first. -/
def digits_value (l : List Char) : Nat :=
  l.foldl (fun a c => 10 * a + (c.toNat - 48)) 0

/-! ## Data model -/

/-- The `Exception` class: what was attempted and what went wrong. -/
structure Exception where
  attempt : String
  what : String
deriving DecidableEq, Repr

/-- An IPv4 address with a port. -/
structure Address where
  ip : String
  port : Nat
deriving DecidableEq, Repr

/-- The value of the global `environ`; `none` is `nullptr`, the empty environment. -/
abbrev Environ := Option (List String)

/-- A bound socket, known by its local address. -/
structure Socket where
  local_addr : Address
deriving DecidableEq, Repr

/-- Handle of a constructed DNS proxy: its UDP and TCP listeners. -/
structure DNSProxy where
  udp_listener : Socket
  tcp_listener : Socket
deriving DecidableEq, Repr

/-- Handle of a constructed HTTP proxy: its TCP listener. -/
structure HTTPProxy where
  tcp_listener : Socket
deriving DecidableEq, Repr

/-- The three `EventLoop` objects of the program. -/
inductive LoopName
  | outer_event_loop
  | shell_event_loop
  | recordr_event_loop
deriving DecidableEq, Repr

/-- The three forked processes: the container (sandbox), the interactive shell
forked by the container, and the recorder. -/
inductive ChildName
  | container
  | shell
  | recorder
deriving DecidableEq, Repr

/-- The two proxies whose handlers get registered with an event loop. -/
inductive ProxyName
  | dns_outside
  | dns_inside
  | http_proxy
deriving DecidableEq, Repr

/-- One call or assignment performed by a process, with its arguments. -/
inductive Action
  | set_environ (e : Environ)
  | check_requirements (argv : List String)
  | first_nameserver
  | interfaces
  | first_unassigned_address (last_octet : Nat)
  | veth_pair (egress ingress : String)
  | assign_address (device : String) (addr peer : Address)
  | dns_proxy (listen udp_target tcp_target : Address)
  | nat (ingress_addr : Address)
  | http_proxy (listen : Address) (directory : String)
  | dnat (target : Address) (interface : String)
  | event_loop (l : LoopName)
  | fork (c : ChildName) (new_namespace : Bool)
  | run (command : List String)
  | set_kernel_will_destroy
  | in_network_namespace (pid : Nat)
  | add_route (gateway : Address)
  | add_child_process (l : LoopName) (c : ChildName)
  | loop (l : LoopName)
  | perror (e : Exception)
  | interface_up (name : String)
  | maybe_proxy (nameserver udp_target tcp_target : Address)
  | drop_privileges
  | prepend_shell_prefix (s : String)
  | shell_path
  | execl (path : String)
  | register_handlers (p : ProxyName) (l : LoopName)
  | check_storage_folder (directory : String)
deriving DecidableEq, Repr

/-- An action together with the value of `environ` right after it. -/
structure Event where
  action : Action
  environ : Environ
deriving DecidableEq, Repr

/-- The finished run of a forked process: the environment it inherited, what
it did, and its exit status (`none` when the run has undefined behaviour). -/
structure Process where
  name : ChildName
  pid : Nat
  entry_environ : Environ
  trace : List Event
  exit : Option Int
deriving DecidableEq, Repr

/-- The parent-side handle of a forked process: its pid and the exit status
the parent observes once the child has terminated. -/
structure ChildProcess where
  name : ChildName
  pid : Nat
  exit_status : Option Int
deriving DecidableEq, Repr

/-- An `EventLoop` object: the child processes registered with it, in order. -/
structure EventLoop where
  name : LoopName
  child_processes : List ChildProcess
deriving DecidableEq, Repr

/-- Everything `main` calls that is not defined in recordshell.cc, as the
outcome each call has in a given run. A call either returns or throws an
`Exception`. The constant `IP` (path of the ip command) is a parameter too. -/
structure World where
  check_requirements : List String → Except Exception Unit
  first_nameserver : Except Exception Address
  interfaces : Except Exception Unit
  first_unassigned_address : Nat → Except Exception (Address × Nat)
  getpid : Nat
  veth_pair : String → String → Except Exception Unit
  assign_address : String → Address → Address → Except Exception Unit
  dns_proxy : Address → Address → Address → Except Exception DNSProxy
  nat : Address → Except Exception Unit
  http_proxy : Address → String → Except Exception HTTPProxy
  dnat : Address → String → Except Exception Unit
  event_loop : LoopName → Except Exception Unit
  clone : ChildName → Except Exception Nat
  IP : String
  run : List String → Except Exception Unit
  in_network_namespace : Nat → Except Exception Unit
  add_route : Address → Except Exception Unit
  interface_up : String → Except Exception Unit
  maybe_proxy : Address → Address → Address → Except Exception (Option DNSProxy)
  drop_privileges : ChildName → Except Exception Unit
  prepend_shell_prefix : String → Environ → Except Exception Environ
  shell_path : Except Exception String
  execl : String → Except Exception Int
  register_handlers : ProxyName → LoopName → Except Exception Unit
  check_storage_folder : String → Except Exception Unit
  loop : LoopName → List (Option Int) → Except Exception Int

/-! ## Process semantics -/

/-- How a piece of code ends. -/
inductive Result (α : Type)
  | ok (a : α)
  | threw (e : Exception)
  | undefined
  | exited (status : Int)
deriving DecidableEq, Repr

/-- State of a running process. -/
structure PState where
  environ : Environ
  trace : List Event
  spawned : List Process
deriving Repr

/-- Code running in a process. -/
def Proc (α : Type) : Type := PState → Result α × PState

/-- Sequencing: a throw, undefined behaviour or the end of the process skips
the rest. -/
def Proc.bind {α β : Type} (m : Proc α) (f : α → Proc β) : Proc β := fun s =>
  match m s with
  | (Result.ok a, s1) => f a s1
  | (Result.threw e, s1) => (Result.threw e, s1)
  | (Result.undefined, s1) => (Result.undefined, s1)
  | (Result.exited n, s1) => (Result.exited n, s1)

instance : Monad Proc where
  pure a := fun s => (Result.ok a, s)
  bind := Proc.bind

/-- Append an action to the trace, with the current `environ`. -/
def PState.log (s : PState) (a : Action) : PState :=
  { s with trace := s.trace ++ [⟨a, s.environ⟩] }

/-- A call to external code: recorded, then it returns or throws. -/
def call {α : Type} (a : Action) (r : Except Exception α) : Proc α := fun s =>
  match r with
  | Except.ok v => (Result.ok v, s.log a)
  | Except.error e => (Result.threw e, s.log a)

/-- A call that cannot fail. -/
def act (a : Action) : Proc Unit := fun s =>
  (Result.ok (), s.log a)

/-- The `throw` statement. -/
def throw_exception {α : Type} (e : Exception) : Proc α := fun s =>
  (Result.threw e, s)

/-- Undefined behaviour. -/
def undefined_behaviour {α : Type} : Proc α := fun s =>
  (Result.undefined, s)

/-- Reading the global `environ`. -/
def get_environ : Proc Environ := fun s =>
  (Result.ok s.environ, s)

/-- Assigning the global `environ`. -/
def set_environ (e : Environ) : Proc Unit := fun s =>
  (Result.ok (), { s with environ := e, trace := s.trace ++ [⟨Action.set_environ e, e⟩] })

/-- The conversion `string( argv[ i ] )`; `argv[ i ]` is a null pointer for `i`
at or past `argc`, and constructing a string from it is undefined. -/
def argv_string (argv : List String) (i : Nat) : Proc String :=
  match argv.get? i with
  | some a => pure a
  | none => undefined_behaviour

/-- The exit code `EXIT_FAILURE`. -/
def EXIT_FAILURE : Int := 1

/-- The exit code `EXIT_SUCCESS`. -/
def EXIT_SUCCESS : Int := 0

/-- Modelled from the spec: `ChildProcess` is not in recordshell.cc. The exit
status a parent observes for a child whose body ended with `r`: the return
value of the body becomes the exit status, a fatal error in the child surfaces
as a nonzero status (`EXIT_FAILURE`), a program started by `execl` gives its own
status; after undefined behaviour there is none. -/
def exit_status (r : Result Int) : Option Int :=
  match r with
  | Result.ok v => some v
  | Result.threw _ => some EXIT_FAILURE
  | Result.undefined => none
  | Result.exited n => some n

/-- Modelled from the spec: `ChildProcess` is not in recordshell.cc. Forking a
process that runs `body`: the fork happens at once, the body runs in the child
from a copy of the state of the parent (so with its `environ`), and the pid is
returned to the parent without blocking. -/
def fork (w : World) (c : ChildName) (new_namespace : Bool) (body : Proc Int) :
    Proc ChildProcess := fun s =>
  match w.clone c with
  | Except.error e => (Result.threw e, s.log (Action.fork c new_namespace))
  | Except.ok pid =>
    let child := body ⟨s.environ, [], []⟩
    let p : Process := ⟨c, pid, s.environ, child.2.trace, exit_status child.1⟩
    (Result.ok ⟨c, pid, exit_status child.1⟩,
      { (s.log (Action.fork c new_namespace)) with
          spawned := s.spawned ++ [p] ++ child.2.spawned })

/-- The `EventLoop` constructor. -/
def EventLoop.create (w : World) (l : LoopName) : Proc EventLoop :=
  bind (call (Action.event_loop l) (w.event_loop l)) fun _ => pure ⟨l, []⟩

/-- The `add_child_process( ChildProcess && )` overload: registers a process
that has already been forked. -/
def EventLoop.add_child_process (el : EventLoop) (cp : ChildProcess) : Proc EventLoop :=
  bind (act (Action.add_child_process el.name cp.name)) fun _ =>
    pure { el with child_processes := el.child_processes ++ [cp] }

/-- The `add_child_process( function )` overload: forks `body`, then registers
the new process. -/
def EventLoop.add_child_process_body (w : World) (el : EventLoop) (c : ChildName)
    (body : Proc Int) : Proc EventLoop :=
  bind (fork w c false body) fun cp => el.add_child_process cp

/-- The call `loop()` on an event loop: its outcome is given by the world, from
the exit statuses of the registered children. -/
def EventLoop.loop (w : World) (el : EventLoop) : Proc Int :=
  call (Action.loop el.name) (w.loop el.name (el.child_processes.map (·.exit_status)))

/-- The `in_network_namespace( pid, body )` helper: `body` runs inside the
network namespace of `pid`, and the caller waits for it. -/
def in_network_namespace (w : World) (pid : Nat) (body : Proc Unit) : Proc Unit :=
  bind (call (Action.in_network_namespace pid) (w.in_network_namespace pid)) fun _ => body

/-- The `execl` system call wrapped in `SystemCall`: on success the process
image is replaced and the process ends with the status of the new program; on
failure `SystemCall` throws. -/
def execl (w : World) (path : String) : Proc Unit := fun s =>
  match w.execl path with
  | Except.ok n => (Result.exited n, s.log (Action.execl path))
  | Except.error e => (Result.threw e, s.log (Action.execl path))

/-- Lines 34-36 as a step of the process: evaluating `directory.back()` on an
empty string is undefined behaviour. -/
def append_separator (directory : String) : Proc String :=
  match normalize_directory directory with
  | some d => pure d
  | none => undefined_behaviour

/-- The `prepend_shell_prefix` helper: it rewrites the prompt settings inside
the current environment. -/
def prepend_shell_prefix (w : World) (str : String) : Proc Unit := fun s =>
  match w.prepend_shell_prefix str s.environ with
  | Except.ok e =>
    (Result.ok (), { s with environ := e,
                            trace := s.trace ++ [⟨ Action.prepend_shell_prefix str, e⟩] })
  | Except.error e => (Result.threw e, s.log ( Action.prepend_shell_prefix str))

/-! ## The program -/

/-- Lines 88-96: the body of the interactive shell process. -/
def shell_body (w : World) (user_environment : Environ) : Proc Int := do
  /- restore environment and tweak prompt -/
  set_environ user_environment
  prepend_shell_prefix w "[record] "
  let shell ← call Action.shell_path w.shell_path
  execl w shell
  return EXIT_FAILURE

/-- Lines 72-103: the body of the container process. -/
def container_body (w : World) (user_environment : Environ) (nameserver : Address)
    (dns_outside : DNSProxy) : Proc Int := do
  /- bring up localhost -/
  call (Action.interface_up "lo") (w.interface_up "lo")
  /- create DNS proxy if nameserver address is local -/
  let dns_inside ← call
    (Action.maybe_proxy nameserver dns_outside.udp_listener.local_addr
      dns_outside.tcp_listener.local_addr)
    (w.maybe_proxy nameserver dns_outside.udp_listener.local_addr
      dns_outside.tcp_listener.local_addr)
  /- fork again after dropping root privileges -/
  call Action.drop_privileges (w.drop_privileges ChildName.container)
  /- prepare child's event loop -/
  let shell_event_loop ← EventLoop.create w LoopName.shell_event_loop
  let shell_event_loop ← shell_event_loop.add_child_process_body w ChildName.shell
    (shell_body w user_environment)
  if dns_inside.isSome then
    call (Action.register_handlers ProxyName.dns_inside LoopName.shell_event_loop)
      (w.register_handlers ProxyName.dns_inside LoopName.shell_event_loop)
  shell_event_loop.loop w

/-- Lines 131-141: the body of the recorder process. -/
def recorder_body (w : World) (directory : String) : Proc Int := do
  call Action.drop_privileges (w.drop_privileges ChildName.recorder)
  /- check if user-specified storage folder exists, and if not, create it -/
  call (Action.check_storage_folder directory) (w.check_storage_folder directory)
  let recordr_event_loop ← EventLoop.create w LoopName.recordr_event_loop
  call (Action.register_handlers ProxyName.dns_outside LoopName.recordr_event_loop)
    (w.register_handlers ProxyName.dns_outside LoopName.recordr_event_loop)
  call (Action.register_handlers ProxyName.http_proxy LoopName.recordr_event_loop)
    (w.register_handlers ProxyName.http_proxy LoopName.recordr_event_loop)
  recordr_event_loop.loop w

/-- Lines 22-143: the `try` block of `main`. -/
def main_try (w : World) (argv : List String) : Proc Int := do
  /- clear environment -/
  let user_environment ← get_environ
  set_environ none
  call (Action.check_requirements argv) (w.check_requirements argv)
  if argv.length ≠ 2 then
    let argv0 ← argv_string argv 0
    (throw_exception ⟨"Usage", argv0 ++ " folder_for_recorded_content"⟩ : Proc Unit)
  /- make sure directory ends with '/' -/
  let directory ← argv_string argv 1
  let directory ← append_separator directory
  let nameserver ← call Action.first_nameserver w.first_nameserver
  /- set egress and ingress ip addresses -/
  call Action.interfaces w.interfaces
  let egress_octet ← call (Action.first_unassigned_address 1) (w.first_unassigned_address 1)
  let ingress_octet ← call (Action.first_unassigned_address ((egress_octet.2 + 1) % 65536))
    (w.first_unassigned_address ((egress_octet.2 + 1) % 65536))
  let egress_addr := egress_octet.1
  let ingress_addr := ingress_octet.1
  /- make pair of devices -/
  let egress_name := egress_name w.getpid
  let ingress_name := ingress_name w.getpid
  call (Action.veth_pair egress_name ingress_name) (w.veth_pair egress_name ingress_name)
  /- bring up egress -/
  call (Action.assign_address egress_name egress_addr ingress_addr)
    (w.assign_address egress_name egress_addr ingress_addr)
  /- create DNS proxy -/
  let dns_outside ← call (Action.dns_proxy egress_addr nameserver nameserver)
    (w.dns_proxy egress_addr nameserver nameserver)
  /- set up NAT between egress and eth0 -/
  call (Action.nat ingress_addr) (w.nat ingress_addr)
  /- set up http proxy for tcp -/
  let http_proxy ← call (Action.http_proxy egress_addr directory)
    (w.http_proxy egress_addr directory)
  /- set up dnat -/
  call (Action.dnat http_proxy.tcp_listener.local_addr egress_name)
    (w.dnat http_proxy.tcp_listener.local_addr egress_name)
  /- prepare event loop -/
  let outer_event_loop ← EventLoop.create w LoopName.outer_event_loop
  /- fork -/
  let container_process ← fork w ChildName.container true
    (container_body w user_environment nameserver dns_outside)
  /- give ingress to container -/
  call (Action.run [w.IP, "link", "set", "dev", ingress_name, "netns",
      to_string container_process.pid])
    (w.run [w.IP, "link", "set", "dev", ingress_name, "netns",
      to_string container_process.pid])
  act Action.set_kernel_will_destroy
  /- bring up ingress -/
  in_network_namespace w container_process.pid (do
    /- bring up veth device -/
    call (Action.assign_address ingress_name ingress_addr egress_addr)
      (w.assign_address ingress_name ingress_addr egress_addr)
    /- create default route -/
    call (Action.add_route egress_addr) (w.add_route egress_addr))
  /- now that we have its pid, move container process to event loop -/
  let outer_event_loop ← outer_event_loop.add_child_process container_process
  /- do the actual recording in a different unprivileged child -/
  let outer_event_loop ← outer_event_loop.add_child_process_body w ChildName.recorder
    (recorder_body w directory)
  outer_event_loop.loop w

/-- Lines 144-147: the handler `catch ( const Exception & e )`, which
reports the exception and returns `EXIT_FAILURE`. -/
def catch_exception (r : Result Int × PState) : Result Int × PState :=
  match r with
  | (Result.threw e, s1) => (Result.ok EXIT_FAILURE, s1.log (Action.perror e))
  | (Result.ok v, s1) => (Result.ok v, s1)
  | (Result.undefined, s1) => (Result.undefined, s1)
  | (Result.exited n, s1) => (Result.exited n, s1)

/-- The function `main`: the `try` block under its exception handler. -/
def main (w : World) (argv : List String) : Proc Int := fun s =>
  catch_exception (main_try w argv s)

/-- A complete run of the program. -/
structure Run where
  trace : List Event
  exit : Option Int
  spawned : List Process
deriving DecidableEq, Repr

/-- The program started with arguments `argv` and environment `environ`. -/
def run_main (w : World) (argv : List String) (environ : Environ) : Run :=
  let r := main w argv ⟨environ, [], []⟩
  ⟨r.2.trace, exit_status r.1, r.2.spawned⟩

/-- The actions of a trace, in order. -/
def actions (t : List Event) : List Action :=
  t.map (·.action)

/-- The run of the forked process `c`, when it was forked. -/
def Run.process (r : Run) (c : ChildName) : Option Process :=
  r.spawned.find? (fun p => p.name = c)

/-! ## A sample world -/

/-- A world in which every call succeeds. -/
def sample_world : World where
  check_requirements := fun _ => Except.ok ()
  first_nameserver := Except.ok ⟨"8.8.8.8", 53⟩
  interfaces := Except.ok ()
  first_unassigned_address := fun n => Except.ok (⟨"100.64.0", n⟩, n)
  getpid := 4211
  veth_pair := fun _ _ => Except.ok ()
  assign_address := fun _ _ _ => Except.ok ()
  dns_proxy := fun a _ _ => Except.ok ⟨⟨⟨a.ip, 5353⟩⟩, ⟨⟨a.ip, 5354⟩⟩⟩
  nat := fun _ => Except.ok ()
  http_proxy := fun a _ => Except.ok ⟨⟨⟨a.ip, 8080⟩⟩⟩
  dnat := fun _ _ => Except.ok ()
  event_loop := fun _ => Except.ok ()
  clone := fun c =>
    match c with
    | ChildName.container => Except.ok 4212
    | ChildName.shell => Except.ok 4213
    | ChildName.recorder => Except.ok 4214
  IP := "/sbin/ip"
  run := fun _ => Except.ok ()
  in_network_namespace := fun _ => Except.ok ()
  add_route := fun _ => Except.ok ()
  interface_up := fun _ => Except.ok ()
  maybe_proxy := fun _ _ _ => Except.ok none
  drop_privileges := fun _ => Except.ok ()
  prepend_shell_prefix := fun s e => Except.ok (e.map (fun l => ("PREFIX=" ++ s) :: l))
  shell_path := Except.ok "/bin/bash"
  execl := fun _ => Except.ok 0
  register_handlers := fun _ _ => Except.ok ()
  check_storage_folder := fun _ => Except.ok ()
  loop := fun _ l => if l.all (fun x => x == some 0) then Except.ok 0 else Except.ok 1

/-! ## Observations on traces -/

/-- A fork of a child process. -/
def Action.is_fork : Action → Bool
  | Action.fork _ _ => true
  | _ => false

/-- The fork of the child process `c`. -/
def Action.is_fork_of (c : ChildName) : Action → Bool
  | Action.fork d _ => d = c
  | _ => false

/-- Installation of the DNAT rule. -/
def Action.is_dnat : Action → Bool
  | Action.dnat _ _ => true
  | _ => false

/-- Construction of the HTTP proxy. -/
def Action.is_http_proxy : Action → Bool
  | Action.http_proxy _ _ => true
  | _ => false

/-- A call of `first_unassigned_address`. -/
def Action.is_allocation : Action → Bool
  | Action.first_unassigned_address _ => true
  | _ => false

/-- The call of `drop_privileges`. -/
def Action.is_drop_privileges : Action → Bool
  | Action.drop_privileges => true
  | _ => false

/-- A change of the environment: an assignment of the global `environ`, or
`prepend_shell_prefix`, which rewrites variables inside it. -/
def Action.changes_environ : Action → Bool
  | Action.set_environ _ => true
  | Action.prepend_shell_prefix _ => true
  | _ => false

/-- Address allocation, virtual device creation, NAT or DNAT rule installation,
proxy construction, or the fork of a child process. -/
def Action.is_setup_effect : Action → Bool
  | Action.first_unassigned_address _ => true
  | Action.veth_pair _ _ => true
  | Action.nat _ => true
  | Action.dnat _ _ => true
  | Action.dns_proxy _ _ _ => true
  | Action.http_proxy _ _ => true
  | Action.fork _ _ => true
  | _ => false

/-- An operation on an event loop (creation, registration of a child or of
handlers, running the loop) or the spawn of a child process. -/
def Action.is_loop_or_spawn : Action → Bool
  | Action.event_loop _ => true
  | Action.fork _ _ => true
  | Action.add_child_process _ _ => true
  | Action.register_handlers _ _ => true
  | Action.loop _ => true
  | Action.execl _ => true
  | _ => false

/-- Host-side configuration of the namespace of the container: moving the
ingress device into it, entering it, assigning the ingress address, installing
the default route. -/
def Action.is_namespace_config (ingress : String) : Action → Bool
  | Action.run _ => true
  | Action.in_network_namespace _ => true
  | Action.assign_address device _ _ => device = ingress
  | Action.add_route _ => true
  | _ => false

/-- What the parent does once host-side configuration is over: registration of
a child with an event loop, the fork of the recorder, running the loop. -/
def Action.is_supervision : Action → Bool
  | Action.add_child_process _ _ => true
  | Action.fork ChildName.recorder _ => true
  | Action.loop _ => true
  | _ => false

/-- The container starts its shell child or runs its event loop. -/
def Action.is_shell_start : Action → Bool
  | Action.fork ChildName.shell _ => true
  | Action.loop LoopName.shell_event_loop => true
  | _ => false

/-- The child registered by an `add_child_process` on the loop `l`. -/
def Action.registered (l : LoopName) : Action → Option ChildName
  | Action.add_child_process k c => if k = l then some c else none
  | _ => none

/-- Every element satisfying `p` occurs before every element satisfying `q`:
no `p` is found at or after a `q`. -/
def all_before {α : Type} (p q : α → Bool) : List α → Bool
  | [] => true
  | a :: t => (!q a || (!p a && t.all (fun b => !p b))) && all_before p q t

/-- Every element satisfying `q` has an element satisfying `p` strictly before
it; `seen` tells whether a `p` has occurred so far. -/
def preceded_by {α : Type} (p q : α → Bool) (seen : Bool) : List α → Bool
  | [] => true
  | a :: t => (!q a || seen) && preceded_by p q (seen || p a) t

/-- The `p` elements come first: each `q` has a `p` before it and no `p` at or
after it. -/
def in_order {α : Type} (p q : α → Bool) (l : List α) : Bool :=
  all_before p q l && preceded_by p q false l

/-- The last character is `/` and the character before it, when there is one,
is not `/`. -/
def ends_with_one_separator (d : String) : Bool :=
  d.data.getLast? == some '/' && d.data.dropLast.getLast? != some '/'

/-! ## Collaborators described by the specification -/

/-- Modelled from the spec: `EventLoop::loop` is not in recordshell.cc. The loop
returns once every watched child has completed; a supervised child that exited
nonzero is the fatal error ChildProcessFailure, raised to the caller; full success
is exit status 0. -/
def supervise (statuses : List (Option Int)) : Except Exception Int :=
  if statuses.all (fun st => st == some 0) then Except.ok EXIT_SUCCESS
  else Except.error ⟨"ChildProcessFailure", "a supervised child exited nonzero"⟩

/-- Modelled from the spec: the probing loop of
`Interfaces::first_unassigned_address`, which is not in recordshell.cc. Octets
are probed in increasing order; `fuel` probes are left and `octet` is the next
one to try. -/
def probe (in_use : List Nat) (subnet : Nat → Address) :
    Nat → Nat → Except Exception (Address × Nat)
  | 0, _ => Except.error ⟨"AllocationExhausted", "no free subnet"⟩
  | fuel + 1, octet =>
    if octet ∈ in_use then probe in_use subnet fuel (octet + 1)
    else Except.ok (subnet octet, octet)

/-- Modelled from the spec: `Interfaces::first_unassigned_address` is not in
recordshell.cc. It returns the first subnet not in use on a host interface,
probing octets from the hint in increasing order up to 255, and fails with
AllocationExhausted when none is free. -/
def Interfaces.first_unassigned_address (in_use : List Nat) (subnet : Nat → Address)
    (last_octet : Nat) : Except Exception (Address × Nat) :=
  probe in_use subnet (256 - last_octet) last_octet

/-! ## Worlds used as concrete inputs -/

/-- The sample world, except that `check_requirements` fails. -/
def unmet_requirements_world : World :=
  { sample_world with
    check_requirements := fun _ =>
      Except.error ⟨"check_requirements", "requirement not met"⟩ }

/-- The sample world with the allocator and the event loop of the
specification; octets 1 and 2 are in use on host interfaces. -/
def specified_world : World :=
  { sample_world with
    first_unassigned_address :=
      Interfaces.first_unassigned_address [1, 2] (fun n => ⟨"100.64.0", n⟩)
    loop := fun _ => supervise }

/-! ## The sequences of the three child bodies -/

/-- The actions of the container body, in program order; `dns_inside` tells
whether `maybe_proxy` returned a proxy. -/
def container_sequence (nameserver : Address) (dns_outside : DNSProxy) (dns_inside : Bool) :
    List Action :=
  [Action.interface_up "lo",
    Action.maybe_proxy nameserver dns_outside.udp_listener.local_addr
      dns_outside.tcp_listener.local_addr,
    Action.drop_privileges,
    Action.event_loop LoopName.shell_event_loop,
    Action.fork ChildName.shell false,
    Action.add_child_process LoopName.shell_event_loop ChildName.shell] ++
  (if dns_inside then
    [Action.register_handlers ProxyName.dns_inside LoopName.shell_event_loop] else []) ++
  [Action.loop LoopName.shell_event_loop]

/-- The actions of the recorder body, in program order. -/
def recorder_sequence (directory : String) : List Action :=
  [Action.drop_privileges,
    Action.check_storage_folder directory,
    Action.event_loop LoopName.recordr_event_loop,
    Action.register_handlers ProxyName.dns_outside LoopName.recordr_event_loop,
    Action.register_handlers ProxyName.http_proxy LoopName.recordr_event_loop,
    Action.loop LoopName.recordr_event_loop]

/-- The actions of the shell body, in program order. -/
def shell_sequence (user_environment : Environ) (shell : String) : List Action :=
  [Action.set_environ user_environment,
    Action.prepend_shell_prefix "[record] ",
    Action.shell_path,
    Action.execl shell]

/-! ## Executions of the process tree -/

/-- A process of the program: the top-level one or a forked child. -/
inductive Owner
  | main
  | child (c : ChildName)
deriving DecidableEq, Repr

/-- One step of an execution: the process that acts, and its action. -/
structure Step where
  owner : Owner
  action : Action
deriving DecidableEq, Repr

/-- The process that forks the child `c`. -/
def parent : ChildName → Owner
  | ChildName.container => Owner.main
  | ChildName.shell => Owner.child ChildName.container
  | ChildName.recorder => Owner.main

/-- The actions of the process `o` in a schedule, in order. -/
def steps_of (o : Owner) (sched : List Step) : List Action :=
  (sched.filter (fun s => s.owner = o)).map (fun s => s.action)

/-- The actions of the process `o` in a run; none when it was never forked. -/
def Run.actions_of (r : Run) : Owner → List Action
  | Owner.main => actions r.trace
  | Owner.child c =>
    match r.process c with
    | some p => actions p.trace
    | none => []

/-- The children forked by the step `s`, added to those forked before. -/
def forked_after (forked : List ChildName) (s : Step) : List ChildName :=
  match s.action with
  | Action.fork c _ => if s.owner = parent c then c :: forked else forked
  | _ => forked

/-- A child acts only once its parent has forked it; `forked` lists the
children forked so far. -/
def forked_first : List ChildName → List Step → Bool
  | _, [] => true
  | forked, s :: t =>
    (match s.owner with
      | Owner.main => true
      | Owner.child c => decide (c ∈ forked)) &&
    forked_first (forked_after forked s) t

/-- Modelled from the spec: `ChildProcess` is not in recordshell.cc. A fork
returns at once and the child runs its body without any handshake with the
parent, so an execution of the process tree is any interleaving of the traces
of its processes in which each process keeps its program order and a child
acts only after its fork. -/
def is_execution (r : Run) (sched : List Step) : Bool :=
  decide (steps_of Owner.main sched = r.actions_of Owner.main) &&
  decide (steps_of (Owner.child ChildName.container) sched =
    r.actions_of (Owner.child ChildName.container)) &&
  decide (steps_of (Owner.child ChildName.shell) sched =
    r.actions_of (Owner.child ChildName.shell)) &&
  decide (steps_of (Owner.child ChildName.recorder) sched =
    r.actions_of (Owner.child ChildName.recorder)) &&
  forked_first [] sched

/-- Host-side configuration of the namespace, done by the top-level process. -/
def Step.is_namespace_config (ingress : String) (s : Step) : Bool :=
  decide (s.owner = Owner.main) && s.action.is_namespace_config ingress

/-- The container process starts its shell child or runs its event loop. -/
def Step.is_shell_start (s : Step) : Bool :=
  decide (s.owner = Owner.child ChildName.container) && s.action.is_shell_start

/-- The top-level process forks the container. -/
def Step.is_container_fork (s : Step) : Bool :=
  decide (s.owner = Owner.main) && s.action.is_fork_of ChildName.container

/-- The top-level process registers a child, forks the recorder or runs its loop. -/
def Step.is_supervision (s : Step) : Bool :=
  decide (s.owner = Owner.main) && s.action.is_supervision

/-- A step of the recorder process. -/
def Step.is_recorder (s : Step) : Bool :=
  decide (s.owner = Owner.child ChildName.recorder)

/-- The steps of the process `o` performing the actions `l`. -/
def steps (o : Owner) (l : List Action) : List Step :=
  l.map (fun a => ⟨o, a⟩)

/-- The schedule of the sample run in which the container process runs to its
loop as soon as it is forked, before the parent goes on: the parent up to the
fork of the container (14 actions), the container, its shell, the rest of the
parent, the recorder. -/
def eager_container_schedule : List Step :=
  let r := run_main sample_world ["mm-webrecord", "out"] none
  steps Owner.main ((r.actions_of Owner.main).take 14) ++
  steps (Owner.child ChildName.container) (r.actions_of (Owner.child ChildName.container)) ++
  steps (Owner.child ChildName.shell) (r.actions_of (Owner.child ChildName.shell)) ++
  steps Owner.main ((r.actions_of Owner.main).drop 14) ++
  steps (Owner.child ChildName.recorder) (r.actions_of (Owner.child ChildName.recorder))

theorem call_bind {α β : Type} (a : Action) (r : Except Exception α) (f : α → Proc β)
    (s : PState) :
    Proc.bind (call a r) f s =
      match r with
      | Except.ok v => f v (s.log a)
      | Except.error e => (Result.threw e, s.log a) := by
  cases r <;> rfl

theorem act_bind {β : Type} (a : Action) (f : Unit → Proc β) (s : PState) :
    Proc.bind (act a) f s = f () (s.log a) := rfl

theorem pure_bind {α β : Type} (a : α) (f : α → Proc β) (s : PState) :
    Proc.bind (pure a) f s = f a s := rfl

theorem fork_bind {β : Type} (w : World) (c : ChildName) (ns : Bool) (body : Proc Int)
    (f : ChildProcess → Proc β) (s : PState) :
    Proc.bind (fork w c ns body) f s =
      match w.clone c with
      | Except.ok pid =>
        f ⟨c, pid, exit_status (body ⟨s.environ, [], []⟩).1⟩
          { (s.log (Action.fork c ns)) with
            spawned := s.spawned ++ [⟨c, pid, s.environ, (body ⟨s.environ, [], []⟩).2.trace,
              exit_status (body ⟨s.environ, [], []⟩).1⟩] ++ (body ⟨s.environ, [], []⟩).2.spawned }
      | Except.error e => (Result.threw e, s.log (Action.fork c ns)) := by
  simp only [Proc.bind, fork]
  cases w.clone c <;> rfl


theorem bind_assoc {α β γ : Type} (m : Proc α) (f : α → Proc β) (g : β → Proc γ) :
    Proc.bind (Proc.bind m f) g = Proc.bind m (fun a => Proc.bind (f a) g) := by
  funext s
  simp only [Proc.bind]
  rcases m s with ⟨r, s1⟩
  cases r <;> rfl

theorem get_environ_bind {β : Type} (f : Environ → Proc β) (s : PState) :
    Proc.bind get_environ f s = f s.environ s := rfl

theorem set_environ_bind {β : Type} (e : Environ) (f : Unit → Proc β) (s : PState) :
    Proc.bind (set_environ e) f s =
      f () { s with environ := e, trace := s.trace ++ [⟨Action.set_environ e, e⟩] } := rfl

theorem throw_exception_bind {α β : Type} (e : Exception) (f : α → Proc β) (s : PState) :
    Proc.bind (throw_exception e) f s = (Result.threw e, s) := rfl

theorem argv_string_bind {β : Type} (argv : List String) (i : Nat) (f : String → Proc β)
    (s : PState) :
    Proc.bind (argv_string argv i) f s =
      match argv.get? i with
      | some a => f a s
      | none => (Result.undefined, s) := by
  simp only [argv_string]
  cases argv.get? i <;> rfl

theorem append_separator_bind {β : Type} (d : String) (f : String → Proc β) (s : PState) :
    Proc.bind (append_separator d) f s =
      match normalize_directory d with
      | some a => f a s
      | none => (Result.undefined, s) := by
  simp only [append_separator]
  cases normalize_directory d <;> rfl

theorem call_apply {α : Type} (a : Action) (r : Except Exception α) (s : PState) :
    call a r s =
      match r with
      | Except.ok v => (Result.ok v, s.log a)
      | Except.error e => (Result.threw e, s.log a) := by
  cases r <;> rfl

theorem pure_apply {α : Type} (a : α) (s : PState) :
    (pure a : Proc α) s = (Result.ok a, s) := rfl


theorem proc_ite_apply {α : Type} (c : Prop) [Decidable c] (a b : Proc α) (s : PState) :
    (if c then a else b) s = if c then a s else b s := by
  split <;> rfl

theorem log_environ (s : PState) (a : Action) : (s.log a).environ = s.environ := rfl

theorem log_spawned (s : PState) (a : Action) : (s.log a).spawned = s.spawned := rfl

/-! ## Strings: decimal conversion and path normalisation -/

theorem digitChar_value : ∀ d < 10, (Nat.digitChar d).toNat - 48 = d := by
  decide

theorem digitChar_ne_i : ∀ d < 10, Nat.digitChar d ≠ 'i' := by
  decide

theorem digits_value_snoc (l : List Char) (c : Char) :
    digits_value (l ++ [c]) = 10 * digits_value l + (c.toNat - 48) := by
  simp [digits_value, List.foldl_append]

/-- The digits produced by `Nat.toDigitsCore` are put in front of the
accumulator, spell the number, and contain no letter `i`. -/
theorem toDigitsCore_spec (fuel : Nat) :
    ∀ n ds, n < fuel →
      ∃ l, Nat.toDigitsCore 10 fuel n ds = l ++ ds ∧ digits_value l = n ∧
        (∀ c ∈ l, c ≠ 'i') := by
  induction fuel with
  | zero => intro n ds h; omega
  | succ fuel ih =>
    intro n ds h
    have hmod : n % 10 < 10 := Nat.mod_lt _ (by decide)
    by_cases h0 : n / 10 = 0
    · refine ⟨[Nat.digitChar (n % 10)], ?_, ?_, ?_⟩
      · simp [Nat.toDigitsCore, h0]
      · have hn : n % 10 = n := by omega
        have hv := digitChar_value _ hmod
        simp only [digits_value, List.foldl_cons, List.foldl_nil, Nat.mul_zero, Nat.zero_add]
        omega
      · intro c hc
        simp only [List.mem_singleton] at hc
        subst hc
        exact digitChar_ne_i _ hmod
    · have hlt : n / 10 < fuel := by omega
      obtain ⟨l, hl, hv, hi⟩ := ih (n / 10) (Nat.digitChar (n % 10) :: ds) hlt
      refine ⟨l ++ [Nat.digitChar (n % 10)], ?_, ?_, ?_⟩
      · simp [Nat.toDigitsCore, h0, hl]
      · rw [digits_value_snoc, hv, digitChar_value _ hmod]
        omega
      · intro c hc
        rcases List.mem_append.1 hc with hc | hc
        · exact hi c hc
        · simp only [List.mem_singleton] at hc
          subst hc
          exact digitChar_ne_i _ hmod

theorem to_string_value (n : Nat) : digits_value (to_string n).data = n := by
  obtain ⟨l, hl, hv, _⟩ := toDigitsCore_spec (n + 1) n [] (Nat.lt_succ_self n)
  simp only [to_string, Nat.repr, Nat.toDigits, List.asString, hl, List.append_nil]
  exact hv

theorem to_string_no_i (n : Nat) : ∀ c ∈ (to_string n).data, c ≠ 'i' := by
  obtain ⟨l, hl, _, hi⟩ := toDigitsCore_spec (n + 1) n [] (Nat.lt_succ_self n)
  simp only [to_string, Nat.repr, Nat.toDigits, List.asString, hl, List.append_nil]
  exact hi

theorem to_string_injective (p q : Nat) (h : to_string p = to_string q) : p = q := by
  have hp := to_string_value p
  rw [h, to_string_value q] at hp
  exact hp.symm

theorem egress_name_data (p : Nat) :
    (egress_name p).data = ['v', 'e', 't', 'h', '-'] ++ (to_string p).data := by
  simp [egress_name, String.data_append]

theorem ingress_name_data (p : Nat) :
    (ingress_name p).data = ['v', 'e', 't', 'h', '-', 'i'] ++ (to_string p).data := by
  simp [ingress_name, String.data_append]

/-- C10: device naming is collision-free. The egress name of a process id is
never the ingress name of any process id, and each of the two namings is
injective in the process id. -/
theorem device_names_collision_free (p q : Nat) :
    egress_name p ≠ ingress_name q ∧
    (egress_name p = egress_name q ↔ p = q) ∧
    (ingress_name p = ingress_name q ↔ p = q) := by
  refine ⟨?_, ⟨?_, fun h => by rw [h]⟩, ⟨?_, fun h => by rw [h]⟩⟩
  · intro h
    have hd := congrArg String.data h
    rw [egress_name_data, ingress_name_data] at hd
    have hd2 : (to_string p).data = 'i' :: (to_string q).data := by
      simpa using hd
    exact to_string_no_i p 'i' (by rw [hd2]; exact List.mem_cons_self _ _) rfl
  · intro h
    have hd := congrArg String.data h
    rw [egress_name_data, egress_name_data] at hd
    exact to_string_injective p q (String.ext (List.append_cancel_left hd))
  · intro h
    have hd := congrArg String.data h
    rw [ingress_name_data, ingress_name_data] at hd
    exact to_string_injective p q (String.ext (List.append_cancel_left hd))

theorem egress_ne_ingress (p q : Nat) : egress_name p ≠ ingress_name q := by
  intro h
  have hd := congrArg String.data h
  rw [egress_name_data, ingress_name_data] at hd
  have hd2 : (to_string p).data = 'i' :: (to_string q).data := by
    simpa using hd
  exact to_string_no_i p 'i' (by rw [hd2]; exact List.mem_cons_self _ _) rfl

theorem back_append_separator (arg : String) : back (arg ++ "/") = some '/' := by
  simp [back, String.data_append]

/-- The normalisation on a non-empty argument: the result ends in `/`; an
argument not ending in `/` gets exactly one `/` appended, an argument
ending in `/` is unchanged. -/
theorem normalize_directory_spec (arg : String) (h : arg ≠ "") :
    ∃ d, normalize_directory arg = some d ∧ back d = some '/' ∧
      (back arg ≠ some '/' → d = arg ++ "/" ∧ ends_with_one_separator d = true) ∧
      (back arg = some '/' → d = arg) := by
  have hne : arg.data ≠ [] := by
    intro h0
    exact h (String.ext h0)
  obtain ⟨c, hc⟩ : ∃ c, back arg = some c := by
    cases hb : back arg with
    | none => exact absurd (List.getLast?_eq_none_iff.1 hb) hne
    | some c => exact ⟨c, rfl⟩
  by_cases hs : c = '/'
  · subst hs
    refine ⟨arg, ?_, hc, ?_, fun _ => rfl⟩
    · simp [normalize_directory, hc]
    · intro hn
      exact absurd hc hn
  · refine ⟨arg ++ "/", ?_, back_append_separator arg, ?_, ?_⟩
    · simp [normalize_directory, hc, hs]
    · intro _
      refine ⟨rfl, ?_⟩
      have hc2 : arg.data.getLast? = some c := hc
      simp [ends_with_one_separator, String.data_append, hc2, hs]
    · intro hn
      rw [hc] at hn
      exact absurd (Option.some.inj hn) hs

/-- Normalising twice gives the same as normalising once. -/
theorem normalize_directory_idempotent (arg d : String) (h : normalize_directory arg = some d) :
    normalize_directory d = some d := by
  have hne : arg ≠ "" := by
    intro h0
    subst h0
    simp [normalize_directory, back] at h
  obtain ⟨d2, hd, hb, _, _⟩ := normalize_directory_spec arg hne
  rw [h] at hd
  cases hd
  simp [normalize_directory, hb]

/-! ## Meaning of the order predicates -/

/-- The predicate `all_before p q` says that no `p` is at or after a `q`: any
`p` has a smaller index than any `q`. -/
theorem all_before_spec {α : Type} (p q : α → Bool) (l : List α) :
    all_before p q l = true ↔
      ∀ (i j : Nat) (a b : α), l[i]? = some a → l[j]? = some b → q a = true → p b = true →
        j < i := by
  induction l with
  | nil => simp [all_before]
  | cons x t ih =>
    simp only [all_before, Bool.and_eq_true, Bool.or_eq_true, Bool.not_eq_true',
      List.all_eq_true, ih]
    constructor
    · rintro ⟨hx, ht⟩ i j a b hi hj hq hp
      cases i with
      | zero =>
        simp only [List.getElem?_cons_zero, Option.some.injEq] at hi
        subst hi
        rcases hx with hx | ⟨hx1, hx2⟩
        · rw [hq] at hx
          exact absurd hx (by simp)
        · cases j with
          | zero =>
            simp only [List.getElem?_cons_zero, Option.some.injEq] at hj
            subst hj
            rw [hp] at hx1
            exact absurd hx1 (by simp)
          | succ j =>
            simp only [List.getElem?_cons_succ] at hj
            have := hx2 b (List.getElem?_mem hj)
            rw [hp] at this
            exact absurd this (by simp)
      | succ i =>
        cases j with
        | zero => exact Nat.succ_pos _
        | succ j =>
          simp only [List.getElem?_cons_succ] at hi hj
          exact Nat.succ_lt_succ (ht i j a b hi hj hq hp)
    · intro h
      refine ⟨?_, fun i j a b hi hj hq hp => ?_⟩
      · by_cases hq : q x = true
        · right
          refine ⟨?_, fun b hb => ?_⟩
          · by_cases hp : p x = true
            · exact absurd (h 0 0 x x (List.getElem?_cons_zero) (List.getElem?_cons_zero) hq hp) (Nat.lt_irrefl 0)
            · simpa using hp
          · by_cases hp : p b = true
            · obtain ⟨j, hj⟩ := List.getElem?_of_mem hb
              exact absurd (h 0 (j + 1) x b (List.getElem?_cons_zero) (by simpa using hj) hq hp) (Nat.not_lt_zero _)
            · simpa using hp
        · left
          simpa using hq
      · exact Nat.lt_of_succ_lt_succ
          (h (i + 1) (j + 1) a b (by simpa using hi) (by simpa using hj) hq hp)

/-- The predicate `preceded_by p q seen` says that every `q` has a `p` at a
smaller index, unless a `p` had been seen before the list began. -/
theorem preceded_by_spec {α : Type} (p q : α → Bool) (l : List α) :
    ∀ seen, preceded_by p q seen l = true ↔
      ∀ (i : Nat) (a : α), l[i]? = some a → q a = true →
        seen = true ∨ ∃ (j : Nat) (b : α), j < i ∧ l[j]? = some b ∧ p b = true := by
  induction l with
  | nil => intro seen; simp [preceded_by]
  | cons x t ih =>
    intro seen
    simp only [preceded_by, Bool.and_eq_true, Bool.or_eq_true, Bool.not_eq_true', ih]
    constructor
    · rintro ⟨hx, ht⟩ i a hi hq
      cases i with
      | zero =>
        simp only [List.getElem?_cons_zero, Option.some.injEq] at hi
        subst hi
        rcases hx with hx | hx
        · rw [hq] at hx
          exact absurd hx (by simp)
        · exact Or.inl hx
      | succ i =>
        simp only [List.getElem?_cons_succ] at hi
        rcases ht i a hi hq with (hs | hs) | ⟨j, b, hj, hb, hp⟩
        · exact Or.inl hs
        · exact Or.inr ⟨0, x, Nat.succ_pos _, List.getElem?_cons_zero, hs⟩
        · exact Or.inr ⟨j + 1, b, Nat.succ_lt_succ hj, by simpa using hb, hp⟩
    · intro h
      refine ⟨?_, fun i a hi hq => ?_⟩
      · by_cases hq : q x = true
        · rcases h 0 x (List.getElem?_cons_zero) hq with hs | ⟨j, b, hj, -, -⟩
          · exact Or.inr hs
          · exact absurd hj (Nat.not_lt_zero _)
        · left
          simpa using hq
      · rcases h (i + 1) a (by simpa using hi) hq with hs | ⟨j, b, hj, hb, hp⟩
        · exact Or.inl (Or.inl hs)
        · cases j with
          | zero =>
            simp only [List.getElem?_cons_zero, Option.some.injEq] at hb
            subst hb
            exact Or.inl (Or.inr hp)
          | succ j =>
            simp only [List.getElem?_cons_succ] at hb
            exact Or.inr ⟨j, b, Nat.lt_of_succ_lt_succ hj, hb, hp⟩

/-! ## Runs of `main` -/

/-- The sample run on the directory `out`: what the top-level process does, its
exit code, and the three processes it spawns. -/
theorem sample_run :
    actions (run_main sample_world ["mm-webrecord", "out"] none).trace =
      [Action.set_environ none,
        Action.check_requirements ["mm-webrecord", "out"],
        Action.first_nameserver,
        Action.interfaces,
        Action.first_unassigned_address 1,
        Action.first_unassigned_address 2,
        Action.veth_pair "veth-4211" "veth-i4211",
        Action.assign_address "veth-4211" ⟨"100.64.0", 1⟩ ⟨"100.64.0", 2⟩,
        Action.dns_proxy ⟨"100.64.0", 1⟩ ⟨"8.8.8.8", 53⟩ ⟨"8.8.8.8", 53⟩,
        Action.nat ⟨"100.64.0", 2⟩,
        Action.http_proxy ⟨"100.64.0", 1⟩ "out/",
        Action.dnat ⟨"100.64.0", 8080⟩ "veth-4211",
        Action.event_loop LoopName.outer_event_loop,
        Action.fork ChildName.container true,
        Action.run ["/sbin/ip", "link", "set", "dev", "veth-i4211", "netns", "4212"],
        Action.set_kernel_will_destroy,
        Action.in_network_namespace 4212,
        Action.assign_address "veth-i4211" ⟨"100.64.0", 2⟩ ⟨"100.64.0", 1⟩,
        Action.add_route ⟨"100.64.0", 1⟩,
        Action.add_child_process LoopName.outer_event_loop ChildName.container,
        Action.fork ChildName.recorder false,
        Action.add_child_process LoopName.outer_event_loop ChildName.recorder,
        Action.loop LoopName.outer_event_loop] ∧
    (run_main sample_world ["mm-webrecord", "out"] none).exit = some 0 ∧
    (run_main sample_world ["mm-webrecord", "out"] none).spawned.map (fun p => p.name) =
      [ChildName.container, ChildName.shell, ChildName.recorder] := by
  refine ⟨by decide, by decide, by decide⟩


set_option maxHeartbeats 4000000 in
/-- The directory given to the HTTP proxy is the normalised `argv[ 1 ]`. -/
theorem http_proxy_directory (w : World) (argv : List String) (env : Environ)
    (listen : Address) (dir : String)
    (h : Action.http_proxy listen dir ∈ actions (run_main w argv env).trace) :
    argv.length = 2 ∧ (argv.get? 1).bind normalize_directory = some dir := by
  revert h
  simp only [run_main, main, main_try, bind, bind_assoc, get_environ_bind, set_environ_bind,
    call_bind, act_bind, pure_bind, fork_bind, EventLoop.create, EventLoop.add_child_process,
    EventLoop.add_child_process_body, EventLoop.loop, in_network_namespace, argv_string_bind,
    append_separator_bind, throw_exception_bind, proc_ite_apply, call_apply, pure_apply]
  repeat' (split <;> try simp only [run_main, main, main_try, bind, bind_assoc,
    get_environ_bind, set_environ_bind,
    call_bind, act_bind, pure_bind, fork_bind, EventLoop.create, EventLoop.add_child_process,
    EventLoop.add_child_process_body, EventLoop.loop, in_network_namespace, argv_string_bind,
    append_separator_bind, throw_exception_bind, proc_ite_apply, call_apply, pure_apply])
  all_goals simp only [catch_exception, PState.log, actions, List.nil_append, List.cons_append,
    List.map_cons, List.map_nil, List.append_assoc]
  all_goals simp_all

/-- C3, as stated, fails: with one argument too few and a failing
`check_requirements`, the exception that `main` raises and reports is the one
of `check_requirements`, not a Usage exception. -/
theorem usage_not_reported_when_requirements_fail :
    ["mm-webrecord"].length ≠ 2 ∧
    actions (run_main unmet_requirements_world ["mm-webrecord"] none).trace =
      [Action.set_environ none, Action.check_requirements ["mm-webrecord"],
        Action.perror ⟨"check_requirements", "requirement not met"⟩] ∧
    ¬ ∃ what, Action.perror ⟨"Usage", what⟩ ∈
        actions (run_main unmet_requirements_world ["mm-webrecord"] none).trace := by
  refine ⟨by decide, by decide, ?_⟩
  rintro ⟨what, h⟩
  have ht : actions (run_main unmet_requirements_world ["mm-webrecord"] none).trace =
      [Action.set_environ none, Action.check_requirements ["mm-webrecord"],
        Action.perror ⟨"check_requirements", "requirement not met"⟩] := by decide
  rw [ht] at h
  simp at h

set_option maxHeartbeats 4000000 in
/-- C3 (amended): when the argument count is not 2, `main` performs no address
allocation, device creation, NAT or DNAT installation, proxy construction or
fork, and no process is spawned; with `argv[ 0 ]` present it returns exit code
1, and the exception it reports is the Usage exception whenever
`check_requirements` returned normally. -/
theorem wrong_argument_count (w : World) (argv : List String) (env : Environ)
    (h : argv.length ≠ 2) :
    (actions (run_main w argv env).trace).all (fun a => !a.is_setup_effect) = true ∧
    (run_main w argv env).spawned = [] ∧
    ∀ a0, argv.get? 0 = some a0 →
      (run_main w argv env).exit = some 1 ∧
      (w.check_requirements argv = Except.ok () →
        actions (run_main w argv env).trace =
          [Action.set_environ none, Action.check_requirements argv,
            Action.perror ⟨"Usage", a0 ++ " folder_for_recorded_content"⟩]) := by
  simp only [run_main, main, main_try, bind, bind_assoc, get_environ_bind, set_environ_bind,
    call_bind, act_bind, pure_bind, fork_bind, EventLoop.create, EventLoop.add_child_process,
    EventLoop.add_child_process_body, EventLoop.loop, in_network_namespace, argv_string_bind,
    append_separator_bind, throw_exception_bind, proc_ite_apply, call_apply, pure_apply,
    if_neg h, ne_eq, not_false_eq_true, if_true, h]
  cases hc : w.check_requirements argv with
  | error e =>
    simp [catch_exception, PState.log, actions, exit_status, Action.is_setup_effect,
      EXIT_FAILURE]
  | ok u =>
    cases h0 : argv.get? 0 with
    | none =>
      simp [catch_exception, PState.log, actions, exit_status, Action.is_setup_effect]
    | some a =>
      simp [catch_exception, PState.log, actions, exit_status, Action.is_setup_effect,
        EXIT_FAILURE]

/-- Witness of `wrong_argument_count`: no positional argument, and
`check_requirements` returns normally. -/
theorem wrong_argument_count_witness :
    ["mm-webrecord"].length ≠ 2 ∧
    ["mm-webrecord"].get? 0 = some "mm-webrecord" ∧
    sample_world.check_requirements ["mm-webrecord"] = Except.ok () ∧
    (run_main sample_world ["mm-webrecord"] none).exit = some 1 ∧
    actions (run_main sample_world ["mm-webrecord"] none).trace =
      [Action.set_environ none, Action.check_requirements ["mm-webrecord"],
        Action.perror ⟨"Usage", "mm-webrecord" ++ " folder_for_recorded_content"⟩] :=
  ⟨by decide, rfl, rfl,
    ((wrong_argument_count sample_world ["mm-webrecord"] none (by decide)).2.2
      "mm-webrecord" rfl).1,
    ((wrong_argument_count sample_world ["mm-webrecord"] none (by decide)).2.2
      "mm-webrecord" rfl).2 rfl⟩

set_option maxHeartbeats 4000000 in
/-- C4: in every run of `main`, the HTTP proxy is constructed before the DNAT
rule is installed, the DNAT rule is installed before any fork, the container
is forked before the recorder, and the DNAT rule redirects to the TCP listener
address of the constructed HTTP proxy on the egress device. -/
theorem dnat_installed_between_proxy_and_forks (w : World) (argv : List String)
    (env : Environ) :
    in_order Action.is_http_proxy Action.is_dnat (actions (run_main w argv env).trace) = true ∧
    in_order Action.is_dnat Action.is_fork (actions (run_main w argv env).trace) = true ∧
    in_order (Action.is_fork_of ChildName.container) (Action.is_fork_of ChildName.recorder)
      (actions (run_main w argv env).trace) = true ∧
    (actions (run_main w argv env).trace).filter Action.is_fork <+:
      [Action.fork ChildName.container true, Action.fork ChildName.recorder false] ∧
    ∀ target interface,
      Action.dnat target interface ∈ actions (run_main w argv env).trace →
      interface = egress_name w.getpid ∧
      ∀ listen dir, Action.http_proxy listen dir ∈ actions (run_main w argv env).trace →
        (w.http_proxy listen dir).toOption.map (fun p => p.tcp_listener.local_addr) =
          some target := by
  simp only [run_main, main, main_try, bind, bind_assoc, get_environ_bind, set_environ_bind,
    call_bind, act_bind, pure_bind, fork_bind, EventLoop.create, EventLoop.add_child_process,
    EventLoop.add_child_process_body, EventLoop.loop, in_network_namespace, argv_string_bind,
    append_separator_bind, throw_exception_bind, proc_ite_apply, call_apply, pure_apply]
  repeat' (split <;> try simp only [run_main, main, main_try, bind, bind_assoc,
    get_environ_bind, set_environ_bind,
    call_bind, act_bind, pure_bind, fork_bind, EventLoop.create, EventLoop.add_child_process,
    EventLoop.add_child_process_body, EventLoop.loop, in_network_namespace, argv_string_bind,
    append_separator_bind, throw_exception_bind, proc_ite_apply, call_apply, pure_apply])
  all_goals simp only [catch_exception, PState.log, actions, List.nil_append, List.cons_append,
    List.map_cons, List.map_nil, List.append_assoc]
  all_goals refine ⟨rfl, rfl, rfl, ?_, ?_⟩
  all_goals simp_all [Action.is_fork, Except.toOption]

/-- Witness of `dnat_installed_between_proxy_and_forks`: in the sample run the
DNAT rule redirects to the listener of the HTTP proxy on the egress device. -/
theorem dnat_installed_between_proxy_and_forks_witness :
    Action.dnat ⟨"100.64.0", 8080⟩ "veth-4211" ∈
      actions (run_main sample_world ["mm-webrecord", "out"] none).trace ∧
    Action.http_proxy ⟨"100.64.0", 1⟩ "out/" ∈
      actions (run_main sample_world ["mm-webrecord", "out"] none).trace ∧
    "veth-4211" = egress_name sample_world.getpid ∧
    (sample_world.http_proxy ⟨"100.64.0", 1⟩ "out/").toOption.map
        (fun p => p.tcp_listener.local_addr) = some ⟨"100.64.0", 8080⟩ :=
  ⟨by decide, by decide,
    ((dnat_installed_between_proxy_and_forks sample_world ["mm-webrecord", "out"]
      none).2.2.2.2 ⟨"100.64.0", 8080⟩ "veth-4211" (by decide)).1,
    ((dnat_installed_between_proxy_and_forks sample_world ["mm-webrecord", "out"]
      none).2.2.2.2 ⟨"100.64.0", 8080⟩ "veth-4211" (by decide)).2
        ⟨"100.64.0", 1⟩ "out/" (by decide)⟩

/-! ## The child bodies -/

theorem execl_bind {β : Type} (w : World) (path : String) (f : Unit → Proc β) (s : PState) :
    Proc.bind (execl w path) f s =
      match w.execl path with
      | Except.ok n => (Result.exited n, s.log (Action.execl path))
      | Except.error e => (Result.threw e, s.log (Action.execl path)) := by
  simp only [Proc.bind, execl]
  cases w.execl path <;> rfl

theorem prepend_shell_prefix_bind {β : Type} (w : World) (str : String) (f : Unit → Proc β)
    (s : PState) :
    Proc.bind ( prepend_shell_prefix w str) f s =
      match w.prepend_shell_prefix str s.environ with
      | Except.ok e =>
        f () { s with environ := e,
                      trace := s.trace ++ [⟨ Action.prepend_shell_prefix str, e⟩] }
      | Except.error e => (Result.threw e, s.log ( Action.prepend_shell_prefix str)) := by
  simp only [Proc.bind, prepend_shell_prefix]
  cases w.prepend_shell_prefix str s.environ <;> rfl

/-- The shell body forks nothing, never returns normally, and performs a
beginning of its sequence: the saved environment is restored first, then the
prompt marker is prepended, then the shell is looked up and exec'd. -/
theorem shell_body_run (w : World) (user_environment e : Environ) :
    (shell_body w user_environment ⟨e, [], []⟩).2.spawned = [] ∧
    (∀ v, (shell_body w user_environment ⟨e, [], []⟩).1 ≠ Result.ok v) ∧
    (shell_body w user_environment ⟨e, [], []⟩).2.trace.head? =
      some ⟨Action.set_environ user_environment, user_environment⟩ ∧
    (∀ shell, w.shell_path = Except.ok shell →
      actions (shell_body w user_environment ⟨e, [], []⟩).2.trace <+:
        shell_sequence user_environment shell) ∧
    (∀ err, w.shell_path = Except.error err →
      actions (shell_body w user_environment ⟨e, [], []⟩).2.trace <+:
        shell_sequence user_environment "") := by
  simp only [shell_body, bind, bind_assoc, set_environ_bind, prepend_shell_prefix_bind,
    call_bind, execl_bind, pure_bind, pure_apply]
  repeat' (split <;> try simp only [shell_body, bind, bind_assoc, set_environ_bind,
    prepend_shell_prefix_bind, call_bind, execl_bind, pure_bind, pure_apply])
  all_goals simp only [PState.log, actions, List.nil_append, List.cons_append,
    List.map_cons, List.map_nil, List.append_assoc, shell_sequence]
  all_goals simp_all

set_option maxHeartbeats 4000000 in
/-- The container body: its trace is a beginning of its sequence and, when the
body returns, the whole of it; the value returned is the one of
`shell_event_loop.loop()`; `environ` is never assigned; the only process
spawned is the shell. -/
theorem container_body_run (w : World) (user_environment : Environ) (nameserver : Address)
    (dns_outside : DNSProxy) (e : Environ) :
    (actions (container_body w user_environment nameserver dns_outside ⟨e, [], []⟩).2.trace <+:
        container_sequence nameserver dns_outside true ∨
      actions (container_body w user_environment nameserver dns_outside ⟨e, [], []⟩).2.trace <+:
        container_sequence nameserver dns_outside false) ∧
    (∀ v, (container_body w user_environment nameserver dns_outside ⟨e, [], []⟩).1 = Result.ok v →
      (actions (container_body w user_environment nameserver dns_outside ⟨e, [], []⟩).2.trace =
          container_sequence nameserver dns_outside true ∨
        actions (container_body w user_environment nameserver dns_outside ⟨e, [], []⟩).2.trace =
          container_sequence nameserver dns_outside false) ∧
      w.loop LoopName.shell_event_loop
        [exit_status (shell_body w user_environment ⟨e, [], []⟩).1] = Except.ok v) ∧
    (Action.loop LoopName.shell_event_loop ∈
        actions (container_body w user_environment nameserver dns_outside ⟨e, [], []⟩).2.trace →
      ∀ v, w.loop LoopName.shell_event_loop
          [exit_status (shell_body w user_environment ⟨e, [], []⟩).1] = Except.ok v →
        (container_body w user_environment nameserver dns_outside ⟨e, [], []⟩).1 = Result.ok v) ∧
    ((container_body w user_environment nameserver dns_outside ⟨e, [], []⟩).1 ≠
        Result.undefined ∧
      ∀ n, (container_body w user_environment nameserver dns_outside ⟨e, [], []⟩).1 ≠
        Result.exited n) ∧
    (∀ p ∈ (container_body w user_environment nameserver dns_outside ⟨e, [], []⟩).2.spawned,
      p.name = ChildName.shell ∧ p.entry_environ = e ∧
      p.trace = (shell_body w user_environment ⟨e, [], []⟩).2.trace ∧
      p.exit = exit_status (shell_body w user_environment ⟨e, [], []⟩).1) ∧
    (∀ ev ∈ (container_body w user_environment nameserver dns_outside ⟨e, [], []⟩).2.trace,
      ev.environ = e) ∧
    (Action.loop LoopName.shell_event_loop ∈
        actions (container_body w user_environment nameserver dns_outside ⟨e, [], []⟩).2.trace →
      (container_body w user_environment nameserver dns_outside ⟨e, [], []⟩).2.spawned ≠ []) ∧
    in_order Action.is_drop_privileges Action.is_loop_or_spawn
      (actions (container_body w user_environment nameserver dns_outside ⟨e, [], []⟩).2.trace) =
        true := by
  have hsp := (shell_body_run w user_environment e).1
  simp only [container_body, bind, bind_assoc, call_bind, act_bind, pure_bind, fork_bind,
    EventLoop.create, EventLoop.add_child_process, EventLoop.add_child_process_body,
    EventLoop.loop, proc_ite_apply, call_apply, pure_apply, log_environ, log_spawned]
  repeat' (split <;> try simp only [container_body, bind, bind_assoc, call_bind, act_bind,
    pure_bind, fork_bind,
    EventLoop.create, EventLoop.add_child_process, EventLoop.add_child_process_body,
    EventLoop.loop, proc_ite_apply, call_apply, pure_apply, log_environ, log_spawned])
  all_goals simp only [PState.log, actions, List.nil_append, List.cons_append,
    List.map_cons, List.map_nil, List.append_assoc, container_sequence, hsp, List.append_nil,
    List.map]
  all_goals refine ⟨?_, ?_, ?_, ?_, ?_, ?_, ?_, rfl⟩
  all_goals simp_all

set_option maxHeartbeats 4000000 in
/-- The recorder body: `drop_privileges` comes first; the trace is a beginning
of the recorder sequence and, when the body returns, the whole of it; the value
returned is the one of `recordr_event_loop.loop()`; `environ` is never
assigned and nothing is spawned. -/
theorem recorder_body_run (w : World) (directory : String) (e : Environ) :
    actions (recorder_body w directory ⟨e, [], []⟩).2.trace <+: recorder_sequence directory ∧
    (actions (recorder_body w directory ⟨e, [], []⟩).2.trace).head? =
      some Action.drop_privileges ∧
    (∀ v, (recorder_body w directory ⟨e, [], []⟩).1 = Result.ok v →
      actions (recorder_body w directory ⟨e, [], []⟩).2.trace = recorder_sequence directory ∧
      w.loop LoopName.recordr_event_loop [] = Except.ok v) ∧
    (Action.loop LoopName.recordr_event_loop ∈
        actions (recorder_body w directory ⟨e, [], []⟩).2.trace →
      ∀ v, w.loop LoopName.recordr_event_loop [] = Except.ok v →
        (recorder_body w directory ⟨e, [], []⟩).1 = Result.ok v) ∧
    ((recorder_body w directory ⟨e, [], []⟩).1 ≠ Result.undefined ∧
      ∀ n, (recorder_body w directory ⟨e, [], []⟩).1 ≠ Result.exited n) ∧
    (recorder_body w directory ⟨e, [], []⟩).2.spawned = [] ∧
    (∀ ev ∈ (recorder_body w directory ⟨e, [], []⟩).2.trace, ev.environ = e) ∧
    in_order Action.is_drop_privileges Action.is_loop_or_spawn
      (actions (recorder_body w directory ⟨e, [], []⟩).2.trace) = true ∧
    (actions (recorder_body w directory ⟨e, [], []⟩).2.trace).count Action.drop_privileges =
      1 := by
  simp only [recorder_body, bind, bind_assoc, call_bind, act_bind, pure_bind,
    EventLoop.create, EventLoop.loop, call_apply, pure_apply]
  repeat' (split <;> try simp only [recorder_body, bind, bind_assoc, call_bind, act_bind,
    pure_bind, EventLoop.create, EventLoop.loop, call_apply, pure_apply])
  all_goals simp only [PState.log, actions, List.nil_append, List.cons_append,
    List.map_cons, List.map_nil, List.append_assoc, recorder_sequence, List.map]
  all_goals refine ⟨?_, ?_, ?_, ?_, ?_, ?_, ?_, rfl, ?_⟩
  all_goals simp_all

/-! ## The processes spawned by `main` -/

set_option maxHeartbeats 4000000 in
/-- The processes spawned in a run of `main`: none, or the container with what
it spawned, or these followed by the recorder. Each child inherits an empty
environment. -/
theorem main_spawned (w : World) (argv : List String) (env : Environ) :
    (run_main w argv env).spawned = [] ∨
    (∃ cpid ns dns,
      (run_main w argv env).spawned =
        ⟨ChildName.container, cpid, none,
          (container_body w env ns dns ⟨none, [], []⟩).2.trace,
          exit_status (container_body w env ns dns ⟨none, [], []⟩).1⟩ ::
        (container_body w env ns dns ⟨none, [], []⟩).2.spawned) ∨
    (∃ cpid ns dns rpid dir,
      (argv.get? 1).bind normalize_directory = some dir ∧
      (run_main w argv env).spawned =
        ⟨ChildName.container, cpid, none,
          (container_body w env ns dns ⟨none, [], []⟩).2.trace,
          exit_status (container_body w env ns dns ⟨none, [], []⟩).1⟩ ::
        ((container_body w env ns dns ⟨none, [], []⟩).2.spawned ++
          [⟨ChildName.recorder, rpid, none,
            (recorder_body w dir ⟨none, [], []⟩).2.trace,
            exit_status (recorder_body w dir ⟨none, [], []⟩).1⟩])) := by
  have hrec := fun dir => (recorder_body_run w dir none).2.2.2.2.2.1
  simp only [run_main, main, main_try, bind, bind_assoc, get_environ_bind, set_environ_bind,
    call_bind, act_bind, pure_bind, fork_bind, EventLoop.create, EventLoop.add_child_process,
    EventLoop.add_child_process_body, EventLoop.loop, in_network_namespace, argv_string_bind,
    append_separator_bind, throw_exception_bind, proc_ite_apply, call_apply, pure_apply,
    log_environ, log_spawned]
  repeat' (split <;> try simp only [run_main, main, main_try, bind, bind_assoc,
    get_environ_bind, set_environ_bind,
    call_bind, act_bind, pure_bind, fork_bind, EventLoop.create, EventLoop.add_child_process,
    EventLoop.add_child_process_body, EventLoop.loop, in_network_namespace, argv_string_bind,
    append_separator_bind, throw_exception_bind, proc_ite_apply, call_apply, pure_apply,
    log_environ, log_spawned])
  all_goals simp only [catch_exception, PState.log, List.nil_append, List.cons_append,
    List.append_assoc, List.append_nil, hrec]
  all_goals first
    | exact Or.inl trivial
    | exact Or.inl rfl
    | exact Or.inr (Or.inl ⟨_, _, _, rfl⟩)
    | exact Or.inr (Or.inr ⟨_, _, _, _, _, by simp_all, rfl⟩)

set_option maxHeartbeats 4000000 in
/-- In the top-level process the first action assigns the empty environment,
no other action changes the environment, and `environ` is empty after every
action. -/
theorem main_environ (w : World) (argv : List String) (env : Environ) :
    (run_main w argv env).trace.head? = some ⟨Action.set_environ none, none⟩ ∧
    (actions (run_main w argv env).trace).countP Action.changes_environ = 1 ∧
    ∀ ev ∈ (run_main w argv env).trace, ev.environ = none := by
  simp only [run_main, main, main_try, bind, bind_assoc, get_environ_bind, set_environ_bind,
    call_bind, act_bind, pure_bind, fork_bind, EventLoop.create, EventLoop.add_child_process,
    EventLoop.add_child_process_body, EventLoop.loop, in_network_namespace, argv_string_bind,
    append_separator_bind, throw_exception_bind, proc_ite_apply, call_apply, pure_apply,
    log_environ, log_spawned]
  repeat' (split <;> try simp only [run_main, main, main_try, bind, bind_assoc,
    get_environ_bind, set_environ_bind,
    call_bind, act_bind, pure_bind, fork_bind, EventLoop.create, EventLoop.add_child_process,
    EventLoop.add_child_process_body, EventLoop.loop, in_network_namespace, argv_string_bind,
    append_separator_bind, throw_exception_bind, proc_ite_apply, call_apply, pure_apply,
    log_environ, log_spawned])
  all_goals simp only [catch_exception, PState.log, actions, List.nil_append, List.cons_append,
    List.map_cons, List.map_nil, List.append_assoc]
  all_goals refine ⟨rfl, rfl, ?_⟩
  all_goals simp

theorem no_change_of_mem_container_sequence (ns : Address) (dns : DNSProxy) (b : Bool) :
    ∀ a ∈ container_sequence ns dns b,
      a.changes_environ = false := by
  cases b <;> simp [container_sequence, Action.changes_environ]

theorem no_change_of_mem_recorder_sequence (dir : String) :
    ∀ a ∈ recorder_sequence dir,
      a.changes_environ = false := by
  simp [recorder_sequence, Action.changes_environ]

theorem mem_actions_of_mem {t : List Event} {ev : Event} (h : ev ∈ t) :
    ev.action ∈ actions t :=
  List.mem_map_of_mem _ h

/-- C7: `main` empties the environment first; no other action of the top-level
process, of the container or of the recorder assigns it, and it is empty
after each of their actions; every child inherits the empty environment; the
shell child first sets `environ` back to the value saved at entry, then
applies `prepend_shell_prefix( "[record] " )`, then looks up and execs the shell. -/
theorem environment_isolation (w : World) (argv : List String) (env : Environ) :
    (run_main w argv env).trace.head? = some ⟨Action.set_environ none, none⟩ ∧
    (actions (run_main w argv env).trace).countP Action.changes_environ = 1 ∧
    (∀ ev ∈ (run_main w argv env).trace, ev.environ = none) ∧
    ∀ p ∈ (run_main w argv env).spawned,
      p.entry_environ = none ∧
      (p.name ≠ ChildName.shell →
        ∀ ev ∈ p.trace, ev.environ = none ∧ ev.action.changes_environ = false) ∧
      (p.name = ChildName.shell →
        p.trace.head? = some ⟨Action.set_environ env, env⟩ ∧
        ∃ shell, actions p.trace <+: shell_sequence env shell) := by
  obtain ⟨h1, h2, h3⟩ := main_environ w argv env
  refine ⟨h1, h2, h3, ?_⟩
  have hcontainer : ∀ ns dns cpid,
      ∀ p ∈ (⟨ChildName.container, cpid, none,
          (container_body w env ns dns ⟨none, [], []⟩).2.trace,
          exit_status (container_body w env ns dns ⟨none, [], []⟩).1⟩ : Process) ::
        (container_body w env ns dns ⟨none, [], []⟩).2.spawned,
      p.entry_environ = none ∧
      (p.name ≠ ChildName.shell →
        ∀ ev ∈ p.trace, ev.environ = none ∧ ev.action.changes_environ = false) ∧
      (p.name = ChildName.shell →
        p.trace.head? = some ⟨Action.set_environ env, env⟩ ∧
        ∃ shell, actions p.trace <+: shell_sequence env shell) := by
    intro ns dns cpid p hp
    obtain ⟨hpre, -, -, -, hsp, henv, -, -⟩ := container_body_run w env ns dns none
    rcases List.mem_cons.1 hp with hp | hp
    · subst hp
      refine ⟨rfl, ?_, fun hn => by simp at hn⟩
      intro _ ev hev
      refine ⟨henv ev hev, ?_⟩
      rcases hpre with hpre | hpre
      · exact no_change_of_mem_container_sequence ns dns true _
          (hpre.subset (mem_actions_of_mem hev))
      · exact no_change_of_mem_container_sequence ns dns false _
          (hpre.subset (mem_actions_of_mem hev))
    · obtain ⟨hname, hentry, htrace, -⟩ := hsp p hp
      refine ⟨hentry, fun hn => absurd hname hn, fun _ => ?_⟩
      obtain ⟨-, -, hhead, hok, herr⟩ := shell_body_run w env none
      rw [htrace]
      refine ⟨hhead, ?_⟩
      · cases hp : w.shell_path with
        | ok shell => exact ⟨shell, hok shell hp⟩
        | error err => exact ⟨"", herr err hp⟩
  rcases main_spawned w argv env with hs | ⟨cpid, ns, dns, hs⟩ | ⟨cpid, ns, dns, rpid, dir, -, hs⟩
  · rw [hs]
    intro p hp
    simp at hp
  · rw [hs]
    exact hcontainer ns dns cpid
  · rw [hs]
    intro p hp
    rw [← List.cons_append] at hp
    rcases List.mem_append.1 hp with hp | hp
    · exact hcontainer ns dns cpid p hp
    · simp only [List.mem_singleton] at hp
      subst hp
      obtain ⟨hpre, -, -, -, -, -, henv, -, -⟩ := recorder_body_run w dir none
      refine ⟨rfl, ?_, fun hn => by simp at hn⟩
      intro _ ev hev
      exact ⟨henv ev hev, no_change_of_mem_recorder_sequence dir _
        (hpre.subset (mem_actions_of_mem hev))⟩

theorem count_drop_container_sequence (ns : Address) (dns : DNSProxy) (b : Bool) :
    (container_sequence ns dns b).count Action.drop_privileges = 1 := by
  cases b <;> simp [container_sequence, List.count_cons]

/-- C6: the container body performs, in this order, loopback up, the optional
in-namespace DNS proxy, `drop_privileges`, creation of `shell_event_loop`, the
shell child, registration of the DNS handlers (when there is a proxy), the
loop; the recorder body starts with `drop_privileges`, followed by
`check_storage_folder`, the loop creation, the two registrations and the loop.
A run of a body performs a beginning of its sequence, and the whole of it when
the body returns. In both bodies every event-loop operation and every spawn
has `drop_privileges` before it and none after it, and `drop_privileges` is
called once (in the container: at most once, and once when the body returns). -/
theorem privilege_ordering (w : World) (user_environment : Environ) (nameserver : Address)
    (dns_outside : DNSProxy) (directory : String) (e : Environ) :
    ((actions (container_body w user_environment nameserver dns_outside ⟨e, [], []⟩).2.trace <+:
        container_sequence nameserver dns_outside true ∨
      actions (container_body w user_environment nameserver dns_outside ⟨e, [], []⟩).2.trace <+:
        container_sequence nameserver dns_outside false) ∧
    (∀ v, (container_body w user_environment nameserver dns_outside ⟨e, [], []⟩).1 = Result.ok v →
      (actions (container_body w user_environment nameserver dns_outside ⟨e, [], []⟩).2.trace =
          container_sequence nameserver dns_outside true ∨
        actions (container_body w user_environment nameserver dns_outside ⟨e, [], []⟩).2.trace =
          container_sequence nameserver dns_outside false) ∧
      (actions (container_body w user_environment nameserver dns_outside
        ⟨e, [], []⟩).2.trace).count Action.drop_privileges = 1) ∧
    in_order Action.is_drop_privileges Action.is_loop_or_spawn
      (actions (container_body w user_environment nameserver dns_outside ⟨e, [], []⟩).2.trace) =
        true ∧
    (actions (container_body w user_environment nameserver dns_outside
      ⟨e, [], []⟩).2.trace).count Action.drop_privileges ≤ 1) ∧
    (actions (recorder_body w directory ⟨e, [], []⟩).2.trace <+: recorder_sequence directory ∧
    (actions (recorder_body w directory ⟨e, [], []⟩).2.trace).head? =
      some Action.drop_privileges ∧
    (∀ v, (recorder_body w directory ⟨e, [], []⟩).1 = Result.ok v →
      actions (recorder_body w directory ⟨e, [], []⟩).2.trace = recorder_sequence directory) ∧
    in_order Action.is_drop_privileges Action.is_loop_or_spawn
      (actions (recorder_body w directory ⟨e, [], []⟩).2.trace) = true ∧
    (actions (recorder_body w directory ⟨e, [], []⟩).2.trace).count Action.drop_privileges =
      1) := by
  obtain ⟨hpre, hret, -, -, -, -, -, hord⟩ :=
    container_body_run w user_environment nameserver dns_outside e
  obtain ⟨rpre, rhead, rret, -, -, -, -, rord, rcount⟩ := recorder_body_run w directory e
  refine ⟨⟨hpre, ?_, hord, ?_⟩, rpre, rhead, fun v hv => (rret v hv).1, rord, rcount⟩
  · intro v hv
    refine ⟨(hret v hv).1, ?_⟩
    rcases (hret v hv).1 with h | h <;> rw [h] <;> exact count_drop_container_sequence _ _ _
  · rcases hpre with h | h
    · exact (count_drop_container_sequence nameserver dns_outside true) ▸
        h.sublist.count_le Action.drop_privileges
    · exact (count_drop_container_sequence nameserver dns_outside false) ▸
        h.sublist.count_le Action.drop_privileges

/-- Witness of `environment_isolation`: the sample run started with one
variable in the environment. -/
theorem environment_isolation_witness :
    (run_main sample_world ["mm-webrecord", "out"] (some ["HOME=/root"])).process
        ChildName.shell ≠ none ∧
    ∀ p ∈ (run_main sample_world ["mm-webrecord", "out"] (some ["HOME=/root"])).spawned,
      p.entry_environ = none ∧
      (p.name ≠ ChildName.shell →
        ∀ ev ∈ p.trace, ev.environ = none ∧ ev.action.changes_environ = false) ∧
      (p.name = ChildName.shell →
        p.trace.head? = some ⟨Action.set_environ (some ["HOME=/root"]), some ["HOME=/root"]⟩ ∧
        ∃ shell, actions p.trace <+: shell_sequence (some ["HOME=/root"]) shell) :=
  ⟨by decide,
    (environment_isolation sample_world ["mm-webrecord", "out"] (some ["HOME=/root"])).2.2.2⟩

/-- Witness of `privilege_ordering`: in the sample world both bodies return,
having called `drop_privileges` once. -/
theorem privilege_ordering_witness :
    (container_body sample_world none ⟨"8.8.8.8", 53⟩
      ⟨⟨⟨"100.64.0", 5353⟩⟩, ⟨⟨"100.64.0", 5354⟩⟩⟩ ⟨none, [], []⟩).1 = Result.ok 0 ∧
    (actions (container_body sample_world none ⟨"8.8.8.8", 53⟩
      ⟨⟨⟨"100.64.0", 5353⟩⟩, ⟨⟨"100.64.0", 5354⟩⟩⟩
      ⟨none, [], []⟩).2.trace).count Action.drop_privileges = 1 ∧
    (recorder_body sample_world "out/" ⟨none, [], []⟩).1 = Result.ok 0 ∧
    actions (recorder_body sample_world "out/" ⟨none, [], []⟩).2.trace =
      recorder_sequence "out/" :=
  ⟨by decide,
    ((privilege_ordering sample_world none ⟨"8.8.8.8", 53⟩
      ⟨⟨⟨"100.64.0", 5353⟩⟩, ⟨⟨"100.64.0", 5354⟩⟩⟩ "out/" none).1.2.1 0 (by decide)).2,
    by decide,
    (privilege_ordering sample_world none ⟨"8.8.8.8", 53⟩
      ⟨⟨⟨"100.64.0", 5353⟩⟩, ⟨⟨"100.64.0", 5354⟩⟩⟩ "out/" none).2.2.2.1 0 (by decide)⟩

/-! ## Complete runs -/

set_option maxHeartbeats 4000000 in
/-- A run of `main` that reaches `outer_event_loop.loop()`: the container and
the recorder have been forked and registered, in this order, and the exit code
is the value returned by the loop, or `EXIT_FAILURE` when the loop throws. -/
theorem main_complete (w : World) (argv : List String) (env : Environ)
    (h : Action.loop LoopName.outer_event_loop ∈ actions (run_main w argv env).trace) :
    ∃ cpid ns dns rpid dir,
      (argv.get? 1).bind normalize_directory = some dir ∧
      (run_main w argv env).spawned =
        ⟨ChildName.container, cpid, none,
          (container_body w env ns dns ⟨none, [], []⟩).2.trace,
          exit_status (container_body w env ns dns ⟨none, [], []⟩).1⟩ ::
        ((container_body w env ns dns ⟨none, [], []⟩).2.spawned ++
          [⟨ChildName.recorder, rpid, none,
            (recorder_body w dir ⟨none, [], []⟩).2.trace,
            exit_status (recorder_body w dir ⟨none, [], []⟩).1⟩]) ∧
      (run_main w argv env).exit =
        (match w.loop LoopName.outer_event_loop
            [exit_status (container_body w env ns dns ⟨none, [], []⟩).1,
              exit_status (recorder_body w dir ⟨none, [], []⟩).1] with
          | Except.ok v => some v
          | Except.error _ => some 1) ∧
      (actions (run_main w argv env).trace).filterMap
          (Action.registered LoopName.outer_event_loop) =
        [ChildName.container, ChildName.recorder] := by
  have hrec := fun dir => (recorder_body_run w dir none).2.2.2.2.2.1
  revert h
  simp only [run_main, main, main_try, bind, bind_assoc, get_environ_bind, set_environ_bind,
    call_bind, act_bind, pure_bind, fork_bind, EventLoop.create, EventLoop.add_child_process,
    EventLoop.add_child_process_body, EventLoop.loop, in_network_namespace, argv_string_bind,
    append_separator_bind, throw_exception_bind, proc_ite_apply, call_apply, pure_apply,
    log_environ, log_spawned]
  repeat' (split <;> try simp only [run_main, main, main_try, bind, bind_assoc,
    get_environ_bind, set_environ_bind,
    call_bind, act_bind, pure_bind, fork_bind, EventLoop.create, EventLoop.add_child_process,
    EventLoop.add_child_process_body, EventLoop.loop, in_network_namespace, argv_string_bind,
    append_separator_bind, throw_exception_bind, proc_ite_apply, call_apply, pure_apply,
    log_environ, log_spawned])
  all_goals simp only [catch_exception, PState.log, actions, List.nil_append, List.cons_append,
    List.map_cons, List.map_nil, List.append_assoc, List.append_nil, hrec]
  all_goals first
    | (intro h; simp at h; done)
    | (intro _
       exact ⟨_, _, _, _, _, by simp_all, rfl, by simp_all [exit_status, EXIT_FAILURE], rfl⟩)

theorem exit_status_eq_zero (r : Result Int) (h1 : r ≠ Result.undefined)
    (h2 : ∀ n, r ≠ Result.exited n) : exit_status r = some 0 ↔ r = Result.ok 0 := by
  cases r with
  | ok v => simp [exit_status]
  | threw e => simp [exit_status, EXIT_FAILURE]
  | undefined => exact absurd rfl h1
  | exited n => exact absurd rfl (h2 n)

theorem supervise_two (a b : Option Int) :
    (match supervise [a, b] with
      | Except.ok v => some v
      | Except.error _ => some (1 : Int)) = some 0 ↔ a = some 0 ∧ b = some 0 := by
  by_cases ha : a = some 0 <;> by_cases hb : b = some 0 <;>
    simp [supervise, ha, hb, EXIT_SUCCESS]

theorem loop_mem_container_sequence (ns : Address) (dns : DNSProxy) (b : Bool) :
    Action.loop LoopName.shell_event_loop ∈ container_sequence ns dns b := by
  cases b <;> simp [container_sequence]

/-- C9: in a run of `main` on the directory `out` whose setup raises no error
(the run reaches `outer_event_loop.loop()`), the children registered with
`outer_event_loop` are the container and then the recorder; the exit code is
the value returned by `outer_event_loop.loop()`; with the loop of the
specification the exit code is 0 exactly when both children exit with 0; and a
child exits with 0 exactly when its own event loop was run and returned 0. -/
theorem two_children_and_exit_code (w : World) (a0 : String) (env : Environ)
    (h : Action.loop LoopName.outer_event_loop ∈
      actions (run_main w [a0, "out"] env).trace) :
    (actions (run_main w [a0, "out"] env).trace).filterMap
        (Action.registered LoopName.outer_event_loop) =
      [ChildName.container, ChildName.recorder] ∧
    ∃ c rec : Process,
      (run_main w [a0, "out"] env).process ChildName.container = some c ∧
      (run_main w [a0, "out"] env).process ChildName.recorder = some rec ∧
      (∀ v, w.loop LoopName.outer_event_loop [c.exit, rec.exit] = Except.ok v →
        (run_main w [a0, "out"] env).exit = some v) ∧
      (w.loop LoopName.outer_event_loop = supervise →
        ((run_main w [a0, "out"] env).exit = some 0 ↔ c.exit = some 0 ∧ rec.exit = some 0)) ∧
      (c.exit = some 0 ↔
        Action.loop LoopName.shell_event_loop ∈ actions c.trace ∧
        ∃ sh, (run_main w [a0, "out"] env).process ChildName.shell = some sh ∧
          w.loop LoopName.shell_event_loop [sh.exit] = Except.ok 0) ∧
      (rec.exit = some 0 ↔
        Action.loop LoopName.recordr_event_loop ∈ actions rec.trace ∧
        w.loop LoopName.recordr_event_loop [] = Except.ok 0) := by
  obtain ⟨cpid, ns, dns, rpid, dir, -, hs, hexit, hreg⟩ := main_complete w [a0, "out"] env h
  obtain ⟨hpre, hret, hloop, ⟨hu, hx⟩, hsp, -, hne, -⟩ := container_body_run w env ns dns none
  obtain ⟨-, -, rret, rloop, ⟨ru, rx⟩, -, -, -, -⟩ := recorder_body_run w dir none
  have hnorec : ∀ p ∈ (container_body w env ns dns ⟨none, [], []⟩).2.spawned,
      ¬ (decide (p.name = ChildName.recorder) = true) := by
    intro p hp
    simp [(hsp p hp).1]
  refine ⟨hreg,
    ⟨ChildName.container, cpid, none,
      (container_body w env ns dns ⟨none, [], []⟩).2.trace,
      exit_status (container_body w env ns dns ⟨none, [], []⟩).1⟩,
    ⟨ChildName.recorder, rpid, none,
      (recorder_body w dir ⟨none, [], []⟩).2.trace,
      exit_status (recorder_body w dir ⟨none, [], []⟩).1⟩, ?_, ?_, ?_, ?_, ?_, ?_⟩
  · simp [Run.process, hs]
  · simp only [Run.process, hs]
    rw [List.find?_cons_of_neg _ (by simp), List.find?_append,
      List.find?_eq_none.2 hnorec]
    simp
  · intro v hv
    simp only at hv
    rw [hexit, hv]
  · intro hw
    rw [hexit, hw]
    exact supervise_two _ _
  · simp only
    rw [exit_status_eq_zero _ hu hx]
    constructor
    · intro h0
      obtain ⟨hseq, hl⟩ := hret 0 h0
      have hmem : Action.loop LoopName.shell_event_loop ∈
          actions (container_body w env ns dns ⟨none, [], []⟩).2.trace := by
        rcases hseq with hseq | hseq <;> rw [hseq] <;>
          exact loop_mem_container_sequence _ _ _
      refine ⟨hmem, ?_⟩
      cases hc : (container_body w env ns dns ⟨none, [], []⟩).2.spawned with
      | nil => exact absurd hc (hne hmem)
      | cons p t =>
        have hp := hsp p (by rw [hc]; exact List.mem_cons_self _ _)
        refine ⟨p, ?_, ?_⟩
        · simp [Run.process, hs, hc, hp.1]
        · rw [hp.2.2.2]
          exact hl
    · rintro ⟨hmem, sh, hsh, hl⟩
      apply hloop hmem 0
      cases hc : (container_body w env ns dns ⟨none, [], []⟩).2.spawned with
      | nil => exact absurd hc (hne hmem)
      | cons p t =>
        have hp := hsp p (by rw [hc]; exact List.mem_cons_self _ _)
        have : sh = p := by
          simp [Run.process, hs, hc, hp.1] at hsh
          exact hsh.symm
        rw [this, hp.2.2.2] at hl
        exact hl
  · simp only
    rw [exit_status_eq_zero _ ru rx]
    constructor
    · intro h0
      obtain ⟨hseq, hl⟩ := rret 0 h0
      exact ⟨by rw [hseq]; simp [recorder_sequence], hl⟩
    · rintro ⟨hmem, hl⟩
      exact rloop hmem 0 hl

/-- Witness of `two_children_and_exit_code`: the run on `out` in the world with
the event loop of the specification, where both children exit with 0. -/
theorem two_children_and_exit_code_witness :
    Action.loop LoopName.outer_event_loop ∈
      actions (run_main specified_world ["mm-webrecord", "out"] none).trace ∧
    specified_world.loop LoopName.outer_event_loop = supervise ∧
    (run_main specified_world ["mm-webrecord", "out"] none).exit = some 0 ∧
    ((actions (run_main specified_world ["mm-webrecord", "out"] none).trace).filterMap
        (Action.registered LoopName.outer_event_loop) =
      [ChildName.container, ChildName.recorder] ∧
    ∃ c rec : Process,
      (run_main specified_world ["mm-webrecord", "out"] none).process ChildName.container =
        some c ∧
      (run_main specified_world ["mm-webrecord", "out"] none).process ChildName.recorder =
        some rec ∧
      (∀ v, specified_world.loop LoopName.outer_event_loop [c.exit, rec.exit] = Except.ok v →
        (run_main specified_world ["mm-webrecord", "out"] none).exit = some v) ∧
      (specified_world.loop LoopName.outer_event_loop = supervise →
        ((run_main specified_world ["mm-webrecord", "out"] none).exit = some 0 ↔
          c.exit = some 0 ∧ rec.exit = some 0)) ∧
      (c.exit = some 0 ↔
        Action.loop LoopName.shell_event_loop ∈ actions c.trace ∧
        ∃ sh, (run_main specified_world ["mm-webrecord", "out"] none).process
            ChildName.shell = some sh ∧
          specified_world.loop LoopName.shell_event_loop [sh.exit] = Except.ok 0) ∧
      (rec.exit = some 0 ↔
        Action.loop LoopName.recordr_event_loop ∈ actions rec.trace ∧
        specified_world.loop LoopName.recordr_event_loop [] = Except.ok 0)) :=
  ⟨by decide, rfl, by decide,
    two_children_and_exit_code specified_world "mm-webrecord" none (by decide)⟩

/-! ## Address allocation -/

/-- What a successful probe returns: an octet at or after the first one
probed, within the probes allowed, not in use, with its subnet. -/
theorem probe_spec (in_use : List Nat) (subnet : Nat → Address) (fuel : Nat) :
    ∀ octet a o, probe in_use subnet fuel octet = Except.ok (a, o) →
      octet ≤ o ∧ o < octet + fuel ∧ o ∉ in_use ∧ a = subnet o := by
  induction fuel with
  | zero =>
    intro octet a o h
    simp [probe] at h
  | succ fuel ih =>
    intro octet a o h
    by_cases hu : octet ∈ in_use
    · simp only [probe, hu, if_true] at h
      obtain ⟨h1, h2, h3, h4⟩ := ih (octet + 1) a o h
      exact ⟨by omega, by omega, h3, h4⟩
    · simp only [probe, hu, if_false, Except.ok.injEq, Prod.mk.injEq] at h
      obtain ⟨h1, h2⟩ := h
      subst h2
      exact ⟨Nat.le_refl _, by omega, hu, h1.symm⟩

set_option maxHeartbeats 4000000 in
/-- C8: `main` calls `first_unassigned_address` with hint 1 and then with the
first result plus 1 (modulo 2^16), and with nothing else; a run that gets to
the creation of the devices has made exactly these two calls. For a first
result of at most 255 the second hint is strictly greater than it. With the
allocator of the specification the two octets returned are distinct, at most
255 and not in use on a host interface. -/
theorem address_allocation (w : World) (argv : List String) (env : Environ) :
    ((actions (run_main w argv env).trace).filter Action.is_allocation <+:
      (match w.first_unassigned_address 1 with
        | Except.ok r =>
          [Action.first_unassigned_address 1,
            Action.first_unassigned_address ((r.2 + 1) % 65536)]
        | Except.error _ => [Action.first_unassigned_address 1])) ∧
    (∀ egress ingress, Action.veth_pair egress ingress ∈ actions (run_main w argv env).trace →
      (w.first_unassigned_address 1).toOption.map (fun r =>
          [Action.first_unassigned_address 1,
            Action.first_unassigned_address ((r.2 + 1) % 65536)]) =
        some ((actions (run_main w argv env).trace).filter Action.is_allocation)) ∧
    (∀ o, o ≤ 255 → o < (o + 1) % 65536) ∧
    (∀ in_use subnet a1 o1 a2 o2,
      Interfaces.first_unassigned_address in_use subnet 1 = Except.ok (a1, o1) →
      Interfaces.first_unassigned_address in_use subnet ((o1 + 1) % 65536) =
        Except.ok (a2, o2) →
      o1 < o2 ∧ o2 ≤ 255 ∧ o1 ∉ in_use ∧ o2 ∉ in_use ∧ a1 = subnet o1 ∧ a2 = subnet o2 ∧
      (Function.Injective subnet →
        a1 ≠ a2 ∧ a1 ∉ in_use.map subnet ∧ a2 ∉ in_use.map subnet)) := by
  refine ⟨?_, ?_, fun o ho => by omega, ?_⟩
  · simp only [run_main, main, main_try, bind, bind_assoc, get_environ_bind, set_environ_bind,
      call_bind, act_bind, pure_bind, fork_bind, EventLoop.create, EventLoop.add_child_process,
      EventLoop.add_child_process_body, EventLoop.loop, in_network_namespace, argv_string_bind,
      append_separator_bind, throw_exception_bind, proc_ite_apply, call_apply, pure_apply,
      log_environ, log_spawned]
    repeat' (split <;> try simp only [run_main, main, main_try, bind, bind_assoc,
      get_environ_bind, set_environ_bind,
      call_bind, act_bind, pure_bind, fork_bind, EventLoop.create, EventLoop.add_child_process,
      EventLoop.add_child_process_body, EventLoop.loop, in_network_namespace, argv_string_bind,
      append_separator_bind, throw_exception_bind, proc_ite_apply, call_apply, pure_apply,
      log_environ, log_spawned])
    all_goals simp only [catch_exception, PState.log, actions, List.nil_append,
      List.cons_append, List.map_cons, List.map_nil, List.append_assoc]
    all_goals simp_all [Action.is_allocation, List.filter]
  · simp only [run_main, main, main_try, bind, bind_assoc, get_environ_bind, set_environ_bind,
      call_bind, act_bind, pure_bind, fork_bind, EventLoop.create, EventLoop.add_child_process,
      EventLoop.add_child_process_body, EventLoop.loop, in_network_namespace, argv_string_bind,
      append_separator_bind, throw_exception_bind, proc_ite_apply, call_apply, pure_apply,
      log_environ, log_spawned]
    repeat' (split <;> try simp only [run_main, main, main_try, bind, bind_assoc,
      get_environ_bind, set_environ_bind,
      call_bind, act_bind, pure_bind, fork_bind, EventLoop.create, EventLoop.add_child_process,
      EventLoop.add_child_process_body, EventLoop.loop, in_network_namespace, argv_string_bind,
      append_separator_bind, throw_exception_bind, proc_ite_apply, call_apply, pure_apply,
      log_environ, log_spawned])
    all_goals simp only [catch_exception, PState.log, actions, List.nil_append,
      List.cons_append, List.map_cons, List.map_nil, List.append_assoc]
    all_goals simp_all [Action.is_allocation, List.filter, Except.toOption]
  · intro in_use subnet a1 o1 a2 o2 h1 h2
    obtain ⟨h11, h12, h13, h14⟩ := probe_spec in_use subnet _ _ _ _ h1
    have hmod : (o1 + 1) % 65536 = o1 + 1 := by omega
    rw [hmod] at h2
    obtain ⟨h21, h22, h23, h24⟩ := probe_spec in_use subnet _ _ _ _ h2
    refine ⟨by omega, by omega, h13, h23, h14, h24, fun hinj => ⟨?_, ?_, ?_⟩⟩
    · rw [h14, h24]
      intro heq
      have := hinj heq
      omega
    · rw [h14]
      intro hmem
      obtain ⟨o, ho, heq⟩ := List.mem_map.1 hmem
      exact h13 (hinj heq ▸ ho)
    · rw [h24]
      intro hmem
      obtain ⟨o, ho, heq⟩ := List.mem_map.1 hmem
      exact h23 (hinj heq ▸ ho)

/-- Witness of `address_allocation`: octets 1 and 2 are in use, the two calls
return octets 3 and 4. -/
theorem address_allocation_witness :
    Interfaces.first_unassigned_address [1, 2] (fun n => ⟨"100.64.0", n⟩) 1 =
      Except.ok (⟨"100.64.0", 3⟩, 3) ∧
    Interfaces.first_unassigned_address [1, 2] (fun n => ⟨"100.64.0", n⟩) ((3 + 1) % 65536) =
      Except.ok (⟨"100.64.0", 4⟩, 4) ∧
    (3 < 4 ∧ 4 ≤ 255 ∧ 3 ∉ [1, 2] ∧ 4 ∉ [1, 2] ∧
      (⟨"100.64.0", 3⟩ : Address) = (fun n => (⟨"100.64.0", n⟩ : Address)) 3 ∧
      (⟨"100.64.0", 4⟩ : Address) = (fun n => (⟨"100.64.0", n⟩ : Address)) 4 ∧
      (Function.Injective (fun n => (⟨"100.64.0", n⟩ : Address)) →
        (⟨"100.64.0", 3⟩ : Address) ≠ ⟨"100.64.0", 4⟩ ∧
        (⟨"100.64.0", 3⟩ : Address) ∉ [1, 2].map (fun n => (⟨"100.64.0", n⟩ : Address)) ∧
        (⟨"100.64.0", 4⟩ : Address) ∉ [1, 2].map (fun n => (⟨"100.64.0", n⟩ : Address)))) :=
  ⟨rfl, rfl,
    (address_allocation specified_world ["mm-webrecord", "out"] none).2.2.2
      [1, 2] (fun n => ⟨"100.64.0", n⟩) ⟨"100.64.0", 3⟩ 3 ⟨"100.64.0", 4⟩ 4 rfl rfl⟩

/-! ## Executions -/

/-- C5, as stated, fails: in the sample run there is an execution in which the
container process forks its shell and runs `shell_event_loop` before the parent
has moved the ingress device into the namespace. -/
theorem shell_may_start_before_namespace_configured :
    is_execution (run_main sample_world ["mm-webrecord", "out"] none)
      eager_container_schedule = true ∧
    all_before (Step.is_namespace_config (ingress_name sample_world.getpid))
      Step.is_shell_start eager_container_schedule = false ∧
    eager_container_schedule.indexOf
        ⟨Owner.child ChildName.container, Action.loop LoopName.shell_event_loop⟩ <
      eager_container_schedule.indexOf
        ⟨Owner.main, Action.run ["/sbin/ip", "link", "set", "dev", "veth-i4211", "netns",
          "4212"]⟩ := by
  refine ⟨by decide, by decide, by decide⟩

set_option maxHeartbeats 4000000 in
/-- In the program order of `main`, host-side configuration of the namespace
comes after the fork of the container and before every registration with an
event loop, the fork of the recorder and the run of the loop. -/
theorem main_namespace_order (w : World) (argv : List String) (env : Environ) :
    in_order (Action.is_fork_of ChildName.container)
      (Action.is_namespace_config (ingress_name w.getpid))
      (actions (run_main w argv env).trace) = true ∧
    all_before (Action.is_namespace_config (ingress_name w.getpid)) Action.is_supervision
      (actions (run_main w argv env).trace) = true ∧
    all_before (Action.is_namespace_config (ingress_name w.getpid))
      (Action.is_fork_of ChildName.recorder) (actions (run_main w argv env).trace) = true := by
  have hne : egress_name w.getpid ≠ ingress_name w.getpid := egress_ne_ingress _ _
  simp only [run_main, main, main_try, bind, bind_assoc, get_environ_bind, set_environ_bind,
    call_bind, act_bind, pure_bind, fork_bind, EventLoop.create, EventLoop.add_child_process,
    EventLoop.add_child_process_body, EventLoop.loop, in_network_namespace, argv_string_bind,
    append_separator_bind, throw_exception_bind, proc_ite_apply, call_apply, pure_apply,
    log_environ, log_spawned]
  repeat' (split <;> try simp only [run_main, main, main_try, bind, bind_assoc,
    get_environ_bind, set_environ_bind,
    call_bind, act_bind, pure_bind, fork_bind, EventLoop.create, EventLoop.add_child_process,
    EventLoop.add_child_process_body, EventLoop.loop, in_network_namespace, argv_string_bind,
    append_separator_bind, throw_exception_bind, proc_ite_apply, call_apply, pure_apply,
    log_environ, log_spawned])
  all_goals simp only [catch_exception, PState.log, actions, List.nil_append, List.cons_append,
    List.map_cons, List.map_nil, List.append_assoc]
  all_goals simp [in_order, all_before, preceded_by, Action.is_namespace_config,
    Action.is_fork_of, Action.is_supervision, hne]

theorem all_not_lift (o : Owner) (p : Action → Bool) (t : List Step)
    (h : (steps_of o t).all (fun b => !p b) = true) :
    t.all (fun s => !(decide (s.owner = o) && p s.action)) = true := by
  induction t with
  | nil => rfl
  | cons s t ih =>
    by_cases ho : s.owner = o
    · simp only [steps_of, List.filter_cons, ho, decide_True, if_true, List.map_cons,
        List.all_cons, Bool.and_eq_true] at h
      simp only [List.all_cons, ho, decide_True, Bool.true_and, Bool.and_eq_true]
      exact ⟨h.1, ih h.2⟩
    · simp only [steps_of, List.filter_cons, ho, decide_False, Bool.false_eq_true,
        if_false] at h
      simp only [List.all_cons, ho, decide_False, Bool.false_and, Bool.not_false,
        Bool.true_and]
      exact ih h

/-- An order that holds among the actions of one process holds among its steps
in every schedule. -/
theorem all_before_lift (o : Owner) (p q : Action → Bool) (sched : List Step)
    (h : all_before p q (steps_of o sched) = true) :
    all_before (fun s => decide (s.owner = o) && p s.action)
      (fun s => decide (s.owner = o) && q s.action) sched = true := by
  induction sched with
  | nil => rfl
  | cons s t ih =>
    by_cases ho : s.owner = o
    · simp only [steps_of, List.filter_cons, ho, decide_True, if_true, List.map_cons,
        all_before, Bool.and_eq_true, Bool.or_eq_true] at h
      simp only [all_before, ho, decide_True, Bool.true_and, Bool.and_eq_true,
        Bool.or_eq_true]
      refine ⟨?_, ih h.2⟩
      rcases h.1 with h1 | h1
      · exact Or.inl h1
      · exact Or.inr ⟨h1.1, all_not_lift o p t h1.2⟩
    · simp only [steps_of, List.filter_cons, ho, decide_False, Bool.false_eq_true,
        if_false] at h
      simp only [all_before, ho, decide_False, Bool.false_and, Bool.not_false,
        Bool.true_or, Bool.true_and]
      exact ih h

theorem preceded_by_lift (o : Owner) (p q : Action → Bool) (sched : List Step) :
    ∀ seen, preceded_by p q seen (steps_of o sched) = true →
      preceded_by (fun s => decide (s.owner = o) && p s.action)
        (fun s => decide (s.owner = o) && q s.action) seen sched = true := by
  induction sched with
  | nil => intro seen _; rfl
  | cons s t ih =>
    intro seen h
    by_cases ho : s.owner = o
    · simp only [steps_of, List.filter_cons, ho, decide_True, if_true, List.map_cons,
        preceded_by, Bool.and_eq_true] at h
      simp only [preceded_by, ho, decide_True, Bool.true_and, Bool.and_eq_true]
      exact ⟨h.1, ih _ h.2⟩
    · simp only [steps_of, List.filter_cons, ho, decide_False, Bool.false_eq_true,
        if_false] at h
      simp only [preceded_by, ho, decide_False, Bool.false_and, Bool.not_false,
        Bool.true_or, Bool.true_and, Bool.or_false]
      exact ih _ h

theorem all_before_of_all_not {α : Type} (p q : α → Bool) (t : List α)
    (h : t.all (fun b => !p b) = true) : all_before p q t = true := by
  induction t with
  | nil => rfl
  | cons a t ih =>
    simp only [List.all_cons, Bool.and_eq_true] at h
    simp only [all_before, Bool.and_eq_true, Bool.or_eq_true]
    exact ⟨Or.inr ⟨h.1, h.2⟩, ih h.2⟩

/-- What is over before the parent forks a child is over before any step of
that child. -/
theorem all_before_child (c : ChildName) (p : Step → Bool) (sched : List Step) :
    ∀ forked, c ∉ forked → forked_first forked sched = true →
      all_before p (fun s => decide (s.owner = parent c) && s.action.is_fork_of c) sched =
        true →
      all_before p (fun s => decide (s.owner = Owner.child c)) sched = true := by
  induction sched with
  | nil => intro _ _ _ _; rfl
  | cons s t ih =>
    intro forked hc hf hb
    simp only [forked_first, Bool.and_eq_true] at hf
    simp only [all_before, Bool.and_eq_true, Bool.or_eq_true] at hb
    have hown : s.owner ≠ Owner.child c := by
      intro ho
      rw [ho] at hf
      simp only [decide_eq_true_eq] at hf
      exact hc hf.1
    simp only [all_before, hown, decide_False, Bool.not_false, Bool.true_or, Bool.true_and]
    by_cases hfork : (decide (s.owner = parent c) && s.action.is_fork_of c) = true
    · rcases hb.1 with h1 | h1
      · rw [hfork] at h1
        simp at h1
      · exact all_before_of_all_not _ _ _ h1.2
    · refine ih (forked_after forked s) ?_ hf.2 hb.2
      intro hmem
      apply hfork
      unfold forked_after at hmem
      split at hmem
      · rename_i d ns hact
        split at hmem
        · rename_i hpar
          rcases List.mem_cons.1 hmem with hcd | hcd
          · subst hcd
            simp [hpar, hact, Action.is_fork_of]
          · exact absurd hcd hc
        · exact absurd hmem hc
      · exact absurd hmem hc

/-- C5 (amended): in every execution of `main`, host-side configuration of the
namespace of the container (moving the ingress device into it, assigning the
ingress address, installing the default route) is done by the parent after it
has forked the container, and is over before the parent registers a child
with `outer_event_loop`, forks the recorder or runs the loop, hence before any
step of the recorder process. -/
theorem namespace_configured_by_parent (w : World) (argv : List String) (env : Environ)
    (sched : List Step) (h : is_execution (run_main w argv env) sched = true) :
    in_order Step.is_container_fork (Step.is_namespace_config (ingress_name w.getpid))
      sched = true ∧
    all_before (Step.is_namespace_config (ingress_name w.getpid)) Step.is_supervision
      sched = true ∧
    all_before (Step.is_namespace_config (ingress_name w.getpid)) Step.is_recorder
      sched = true := by
  simp only [is_execution, Bool.and_eq_true, decide_eq_true_eq] at h
  obtain ⟨⟨⟨⟨hmain, -⟩, -⟩, -⟩, hfork⟩ := h
  obtain ⟨h1, h2, h3⟩ := main_namespace_order w argv env
  simp only [Run.actions_of] at hmain
  rw [← hmain] at h1 h2 h3
  simp only [in_order, Bool.and_eq_true] at h1
  refine ⟨?_, all_before_lift _ _ _ _ h2, ?_⟩
  · simp only [in_order, Bool.and_eq_true]
    exact ⟨all_before_lift _ _ _ _ h1.1, preceded_by_lift _ _ _ _ _ h1.2⟩
  · exact all_before_child ChildName.recorder _ sched [] (by simp) hfork
      (all_before_lift _ _ _ _ h3)

/-- Witness of `namespace_configured_by_parent`: the sample run under the
schedule in which the container runs first. -/
theorem namespace_configured_by_parent_witness :
    is_execution (run_main sample_world ["mm-webrecord", "out"] none)
      eager_container_schedule = true ∧
    in_order Step.is_container_fork
      (Step.is_namespace_config (ingress_name sample_world.getpid))
      eager_container_schedule = true ∧
    all_before (Step.is_namespace_config (ingress_name sample_world.getpid))
      Step.is_supervision eager_container_schedule = true ∧
    all_before (Step.is_namespace_config (ingress_name sample_world.getpid))
      Step.is_recorder eager_container_schedule = true :=
  ⟨by decide,
    namespace_configured_by_parent sample_world ["mm-webrecord", "out"] none
      eager_container_schedule (by decide)⟩

/-! ## The storage path -/

/-- C1: on the empty directory argument `directory.back()` is evaluated on an
empty string, which is undefined behaviour: the normalisation has no result,
and the run of `main` stops there without a defined exit code and without
having passed any storage path on. -/
theorem empty_directory_undefined :
    normalize_directory "" = none ∧
    (run_main sample_world ["mm-webrecord", ""] none).exit = none ∧
    actions (run_main sample_world ["mm-webrecord", ""] none).trace =
      [Action.set_environ none, Action.check_requirements ["mm-webrecord", ""]] := by
  refine ⟨by decide, by decide, by decide⟩

/-- C2, as stated, fails: the argument `out//` is passed on unchanged, and the
character before its last `/` is a `/` too. -/
theorem repeated_separator_kept :
    normalize_directory "out//" = some "out//" ∧
    ends_with_one_separator "out//" = false ∧
    Action.http_proxy ⟨"100.64.0", 1⟩ "out//" ∈
      actions (run_main sample_world ["mm-webrecord", "out//"] none).trace := by
  refine ⟨by decide, by decide, by decide⟩

theorem check_storage_folder_not_mem_container_sequence (ns : Address) (dns : DNSProxy)
    (b : Bool) (d : String) : Action.check_storage_folder d ∉ container_sequence ns dns b := by
  cases b <;> simp [container_sequence]

theorem check_storage_folder_not_mem_shell_sequence (ue : Environ) (shell d : String) :
    Action.check_storage_folder d ∉ shell_sequence ue shell := by
  simp [shell_sequence]

theorem check_storage_folder_mem_recorder_sequence (dir d : String)
    (h : Action.check_storage_folder d ∈ recorder_sequence dir) : d = dir := by
  simpa [recorder_sequence] using h

/-- C2 (amended): for a non-empty directory argument the storage path that
`main` passes to the HTTP proxy and to `check_storage_folder` is the normalised
argument; its last character is `/`; when the argument does not end in `/` it is
the argument with one `/` appended, and then the character before the last
`/` is not `/`; when the argument ends in `/` it is the argument unchanged. -/
theorem storage_path_ends_with_separator (w : World) (a0 arg : String) (env : Environ)
    (harg : arg ≠ "") :
    ∃ dir, normalize_directory arg = some dir ∧ back dir = some '/' ∧
      (back arg ≠ some '/' → dir = arg ++ "/" ∧ ends_with_one_separator dir = true) ∧
      (back arg = some '/' → dir = arg) ∧
      (∀ listen d, Action.http_proxy listen d ∈ actions (run_main w [a0, arg] env).trace →
        d = dir) ∧
      (∀ p ∈ (run_main w [a0, arg] env).spawned,
        ∀ d, Action.check_storage_folder d ∈ actions p.trace → d = dir) := by
  obtain ⟨dir, hn, hb, h1, h2⟩ := normalize_directory_spec arg harg
  refine ⟨dir, hn, hb, h1, h2, ?_, ?_⟩
  · intro listen d hd
    have := (http_proxy_directory w [a0, arg] env listen d hd).2
    simp [hn] at this
    exact this.symm
  · have hcontainer : ∀ ns dns cpid,
        ∀ p ∈ (⟨ChildName.container, cpid, none,
            (container_body w env ns dns ⟨none, [], []⟩).2.trace,
            exit_status (container_body w env ns dns ⟨none, [], []⟩).1⟩ : Process) ::
          (container_body w env ns dns ⟨none, [], []⟩).2.spawned,
        ∀ d, Action.check_storage_folder d ∉ actions p.trace := by
      intro ns dns cpid p hp d hd
      obtain ⟨hpre, -, -, -, hsp, -, -, -⟩ := container_body_run w env ns dns none
      rcases List.mem_cons.1 hp with hp | hp
      · subst hp
        rcases hpre with hpre | hpre
        · exact check_storage_folder_not_mem_container_sequence _ _ _ _ (hpre.subset hd)
        · exact check_storage_folder_not_mem_container_sequence _ _ _ _ (hpre.subset hd)
      · obtain ⟨-, -, htrace, -⟩ := hsp p hp
        rw [htrace] at hd
        obtain ⟨-, -, -, hok, herr⟩ := shell_body_run w env none
        cases hs : w.shell_path with
        | ok shell =>
          exact check_storage_folder_not_mem_shell_sequence _ _ _ ((hok shell hs).subset hd)
        | error err =>
          exact check_storage_folder_not_mem_shell_sequence _ _ _ ((herr err hs).subset hd)
    rcases main_spawned w [a0, arg] env with hs | ⟨cpid, ns, dns, hs⟩ |
      ⟨cpid, ns, dns, rpid, dir2, hdir, hs⟩
    · rw [hs]
      intro p hp
      simp at hp
    · rw [hs]
      intro p hp d hd
      exact absurd hd (hcontainer ns dns cpid p hp d)
    · rw [hs]
      intro p hp d hd
      rw [← List.cons_append] at hp
      rcases List.mem_append.1 hp with hp | hp
      · exact absurd hd (hcontainer ns dns cpid p hp d)
      · simp only [List.mem_singleton] at hp
        subst hp
        have hpre := (recorder_body_run w dir2 none).1
        have hd2 := check_storage_folder_mem_recorder_sequence _ _ (hpre.subset hd)
        simp [hn] at hdir
        rw [hd2, hdir]

/-- Witness of `storage_path_ends_with_separator`: the argument `out`. -/
theorem storage_path_ends_with_separator_witness :
    "out" ≠ "" ∧
    ∃ dir, normalize_directory "out" = some dir ∧ back dir = some '/' ∧
      (back "out" ≠ some '/' → dir = "out" ++ "/" ∧ ends_with_one_separator dir = true) ∧
      (back "out" = some '/' → dir = "out") ∧
      (∀ listen d, Action.http_proxy listen d ∈
          actions (run_main sample_world ["mm-webrecord", "out"] none).trace → d = dir) ∧
      (∀ p ∈ (run_main sample_world ["mm-webrecord", "out"] none).spawned,
        ∀ d, Action.check_storage_folder d ∈ actions p.trace → d = dir) :=
  ⟨by decide, storage_path_ends_with_separator sample_world "mm-webrecord" "out" none
    (by decide)⟩


end RecordShell
